import Mathlib

/-!
Verification development for the Travel-assistant preference engine.

The Python sources are shallowly embedded:
* strings are `List Char` (`PyStr`), `str.lower` is `pyLower`, `str.strip`
  is `pyStrip`, substring tests (`"x" in s`) are `hasSub`;
* `re.search` truthiness is modelled by a small backtracking regex engine
  (`RE`, `reSearch`) with fuel, used exactly where the code calls `re`;
* Python dicts keyed by strings are association lists (`Dict`);
* fallible code (KeyError) is `Except`;
* the SQLite-backed preference table is a list of rows, one write is one
  state transition.
-/

set_option maxHeartbeats 4000000
set_option maxRecDepth 10000

namespace TravelAssistant

/-- Python strings, embedded as lists of characters. -/
abbrev PyStr := List Char

/-- Literal helper: a Lean string literal as a `PyStr`. -/
def strL (s : String) : PyStr := s.data

/-- The apostrophe character (kept out of string literals). -/
def apos : Char := Char.ofNat 39

/-- Python `str.lower()` (ASCII case folding, as used by the sources). -/
def pyLower (s : PyStr) : PyStr := s.map Char.toLower

/-- Python `str.upper()`. -/
def pyUpper (s : PyStr) : PyStr := s.map Char.toUpper

/-- Characters treated as whitespace by Python `str.strip()` (ASCII subset). -/
def isPySpace (c : Char) : Bool :=
  c == ' ' || c == '\t' || c == '\n' || c == '\r' || c == Char.ofNat 11 || c == Char.ofNat 12

/-- Python `str.strip()`: drop whitespace from both ends. -/
def pyStrip (s : PyStr) : PyStr :=
  ((s.dropWhile isPySpace).reverse.dropWhile isPySpace).reverse

/-- Bool test for `needle` being a prefix of `hay` (Python `str.startswith`). -/
def isPre : PyStr → PyStr → Bool
  | [], _ => true
  | _ :: _, [] => false
  | a :: n, b :: h => a == b && isPre n h

/-- Bool test for `needle in hay` (Python substring containment). -/
def hasSub (needle : PyStr) : PyStr → Bool
  | [] => isPre needle []
  | b :: h => isPre needle (b :: h) || hasSub needle h

/-- Any of the keyword substrings occurs (`any(kw in lower for kw in kws)`). -/
def kwAny (kws : List PyStr) (hay : PyStr) : Bool := kws.any (fun k => hasSub k hay)

/-- Python `" ".join(items)`. -/
def joinSpace : List PyStr → PyStr
  | [] => []
  | [x] => x
  | x :: y :: rest => x ++ [' '] ++ joinSpace (y :: rest)

/-- Python `sep.join(items)` for a general separator. -/
def joinSep (sep : PyStr) : List PyStr → PyStr
  | [] => []
  | [x] => x
  | x :: y :: rest => x ++ sep ++ joinSep sep (y :: rest)

/-! ### A small regex engine

Models the truthiness of Python `re.search` / anchored `re.match` for the
fixed patterns appearing in the sources (literals, alternation, `?`, `*`,
`+` via star, character classes `\s` `\w` `.` `[^)]` `[a-z]`, and the
word-boundary assertion `\b`). -/

/-- Regular expressions over characters. -/
inductive RE where
  | fail : RE
  | eps : RE
  | chr (c : Char) : RE
  | cls (p : Char → Bool) : RE
  | seq (a b : RE) : RE
  | alt (a b : RE) : RE
  | star (a : RE) : RE
  | bnd : RE

/-- Structural size, used to bound the matcher fuel. -/
def RE.size : RE → Nat
  | .fail => 1
  | .eps => 1
  | .chr _ => 1
  | .cls _ => 1
  | .seq a b => a.size + b.size + 1
  | .alt a b => a.size + b.size + 1
  | .star a => a.size + 1
  | .bnd => 1

/-- A word character for `\b` (Python `\w` over ASCII). -/
def wordChar (c : Char) : Bool := c.isAlphanum || c == '_'

/-- Is the character at position `i` (0-based) a word character? -/
def isWordAt (s : PyStr) (i : Nat) : Bool :=
  match s.get? i with
  | some c => wordChar c
  | none => false

/-- Python `\b`: a word boundary at position `i` of `s`. -/
def atBoundary (s : PyStr) (i : Nat) : Bool :=
  if i == 0 then isWordAt s 0
  else isWordAt s (i - 1) != isWordAt s i

/-- All end positions of a match of `re` starting at position `i` of `s`
(backtracking, fuel-bounded). -/
def reMatch : Nat → RE → PyStr → Nat → List Nat
  | 0, _, _, _ => []
  | _ + 1, .fail, _, _ => []
  | _ + 1, .eps, _, i => [i]
  | _ + 1, .chr c, s, i =>
      match s.get? i with
      | some d => if d == c then [i + 1] else []
      | none => []
  | _ + 1, .cls p, s, i =>
      match s.get? i with
      | some d => if p d then [i + 1] else []
      | none => []
  | fuel + 1, .seq a b, s, i =>
      (reMatch fuel a s i).flatMap (fun j => reMatch fuel b s j)
  | fuel + 1, .alt a b, s, i => reMatch fuel a s i ++ reMatch fuel b s i
  | fuel + 1, .star a, s, i =>
      i :: (reMatch fuel a s i).flatMap
        (fun j => if j == i then [] else reMatch fuel (.star a) s j)
  | _ + 1, .bnd, s, i => if atBoundary s i then [i] else []

/-- Fuel sufficient for the fixed patterns and inputs we evaluate. -/
def reFuel (re : RE) (s : PyStr) : Nat := (s.length + 2) * (re.size + 2)

/-- Does `re` match starting at position `i`? -/
def reMatchesAt (re : RE) (s : PyStr) (i : Nat) : Bool :=
  !(reMatch (reFuel re s) re s i).isEmpty

/-- Truthiness of Python `re.search(re, s)`. -/
def reSearch (re : RE) (s : PyStr) : Bool :=
  (List.range (s.length + 1)).any (fun i => reMatchesAt re s i)

/-- Does `re` match starting at `i` and extending to the very end of `s`? -/
def reMatchesToEndAt (re : RE) (s : PyStr) (i : Nat) : Bool :=
  (reMatch (reFuel re s) re s i).contains s.length

/-- Concatenation of a list of regexes. -/
def rcat (l : List RE) : RE := l.foldr RE.seq RE.eps

/-- Alternation of a list of regexes (`(?:a|b|c)`). -/
def ralt (l : List RE) : RE := l.foldr RE.alt RE.fail

/-- Literal regex for a concrete string. -/
def rlit (s : String) : RE := rcat (s.data.map RE.chr)

/-- Literal regex for a `PyStr`. -/
def rlitL (s : PyStr) : RE := rcat (s.map RE.chr)

/-- `r?`. -/
def ropt (r : RE) : RE := RE.alt r RE.eps

/-- `r+`. -/
def rplus (r : RE) : RE := RE.seq r (RE.star r)

/-- `\s`. -/
def rws : RE := RE.cls isPySpace

/-- `\s+`. -/
def rwsP : RE := rplus rws

/-- `\s*`. -/
def rwsS : RE := RE.star rws

/-- `.` (any character but a newline). -/
def rdot : RE := RE.cls (fun c => c != '\n')

/-- `.*`. -/
def rdotS : RE := RE.star rdot

/-- `\w`. -/
def rw : RE := RE.cls wordChar

/-- `[a-z]` as it behaves under `re.IGNORECASE` on lowered text. -/
def ralpha : RE := RE.cls Char.isAlpha

/-! ### Canonicalizer (`memory_manager._canonicalize_preference_text` and
`_strip_preference_wrappers`) -/

/-- `"don't like"` (apostrophe built explicitly). -/
def dontLikeKw : PyStr := strL "don" ++ [apos] ++ strL "t like"

/-- `"don't mind"`. -/
def dontMindKw : PyStr := strL "don" ++ [apos] ++ strL "t mind"

/-- Negation keywords of the stops branch. -/
def stopsNegKws : List PyStr := [strL "avoid", strL "no ", strL "without", strL "hate"]

/-- Acceptance keywords of the stops branch. -/
def stopsOkKws : List PyStr :=
  [strL "ok", strL "okay", strL "fine", dontMindKw, strL "dont mind", strL "willing"]

/-- Negation keywords of the departure-time branch. -/
def timeNegKws : List PyStr :=
  [strL "hate", strL "avoid", dontLikeKw, strL "dont like", strL "do not like", strL "no ", strL "never"]

/-- Negation keywords of the red-eye branch. -/
def redEyeNegKws : List PyStr := [strL "avoid", strL "no ", strL "never", strL "hate"]

/-- Negation keywords of the middle-seat branch. -/
def seatNegKws : List PyStr :=
  [strL "avoid", strL "no ", strL "never", strL "hate", dontLikeKw, strL "dont like"]

/-- Cabin value selection (the `cabin = ...` if-chain). -/
def canonCabinValue (lower : PyStr) : Option PyStr :=
  if hasSub (strL "premium economy") lower ||
      (hasSub (strL "premium") lower && hasSub (strL "economy") lower) then
    some (strL "Premium Economy")
  else if hasSub (strL "business") lower then some (strL "Business")
  else if hasSub (strL "first") lower then some (strL "First")
  else if hasSub (strL "economy") lower then some (strL "Economy")
  else none

/-- Length of the leading run of whitespace (`\s*`). -/
def wsLen (s : PyStr) : Nat := (s.takeWhile isPySpace).length

/-- The five leading verbs of the passthrough strip. -/
def leadWords : List PyStr :=
  [strL "prefer", strL "like", strL "love", strL "want", strL "need"]

/-- First verb alternative matching at the head of `s` and followed by
whitespace (alternation semantics of `(prefer|like|love|want|need)\s+`). -/
def leadWordMatch (s : PyStr) : Option Nat :=
  leadWords.findSome? (fun w =>
    if isPre w s && wsLen (s.drop w.length) != 0 then some w.length else none)

/-- Length of the prefix removed by
`re.sub(r"^\s*i\s+(prefer|like|love|want|need)\s+", "", t, re.IGNORECASE)`. -/
def stripLeadLen (t : PyStr) : Nat :=
  let l := pyLower t
  let i0 := wsLen l
  match l.drop i0 with
  | [] => 0
  | c :: r2 =>
    if c == 'i' then
      let w1 := wsLen r2
      if w1 == 0 then 0
      else
        let r3 := r2.drop w1
        match leadWordMatch r3 with
        | some k => i0 + 1 + w1 + k + wsLen (r3.drop k)
        | none => 0
    else 0

/-- The passthrough strip of leading "I prefer/like/love/want/need". -/
def stripLead (t : PyStr) : PyStr := t.drop (stripLeadLen t)

/-- The branches after the cabin-class check (trip type, stops, departure
time, red-eye, seats, baggage, passenger, passthrough). -/
def canonicalizeRest (t lower : PyStr) : PyStr :=
  if hasSub (strL "one-way") lower || hasSub (strL "one way") lower then
    strL "Trip type: One-way"
  else if hasSub (strL "round trip") lower || hasSub (strL "round-trip") lower ||
      hasSub (strL "return") lower then
    strL "Trip type: Round trip"
  else if hasSub (strL "nonstop") lower || hasSub (strL "non-stop") lower ||
      hasSub (strL "direct") lower then
    strL "Stops: Direct only"
  else if (hasSub (strL "layover") lower || hasSub (strL "stopover") lower ||
      hasSub (strL "stops") lower) && kwAny stopsNegKws lower then
    strL "Stops: Avoid layovers"
  else if (hasSub (strL "layover") lower || hasSub (strL "stopover") lower ||
      hasSub (strL "stops") lower) && kwAny stopsOkKws lower then
    strL "Stops: Layovers OK"
  else if hasSub (strL "morning") lower then
    if kwAny timeNegKws lower then strL "Departure time: Avoid morning"
    else strL "Departure time: Morning"
  else if hasSub (strL "afternoon") lower then
    if kwAny timeNegKws lower then strL "Departure time: Avoid afternoon"
    else strL "Departure time: Afternoon"
  else if hasSub (strL "evening") lower then
    if kwAny timeNegKws lower then strL "Departure time: Avoid evening"
    else strL "Departure time: Evening"
  else if hasSub (strL "red-eye") lower || hasSub (strL "red eye") lower then
    if kwAny redEyeNegKws lower then strL "Red-eye: Avoid"
    else strL "Red-eye: Prefer to avoid"
  else if hasSub (strL "window") lower then strL "Seat: Window"
  else if hasSub (strL "aisle") lower then strL "Seat: Aisle"
  else if hasSub (strL "exit row") lower then strL "Seat: Exit row"
  else if (hasSub (strL "middle") lower || hasSub (strL "center") lower) &&
      kwAny seatNegKws lower then
    strL "Seat: Avoid middle"
  else if hasSub (strL "carry-on") lower || hasSub (strL "cabin baggage") lower then
    strL "Baggage: Carry-on only"
  else if hasSub (strL "checked") lower then strL "Baggage: Checked bag"
  else if hasSub (strL "extra baggage") lower then strL "Baggage: Extra baggage"
  else if hasSub (strL "traveling alone") lower || hasSub (strL "travelling alone") lower ||
      hasSub (strL "solo") lower then
    strL "Travel: Solo"
  else if hasSub (strL "with family") lower || hasSub (strL "kids") lower ||
      hasSub (strL "children") lower then
    strL "Travel: With family"
  else if hasSub (strL "with partner") lower || hasSub (strL "spouse") lower then
    strL "Travel: With partner"
  else pyStrip (stripLead t)

/-- `MemoryManager._canonicalize_preference_text`. -/
def canonicalizePreferenceText (coreText : PyStr) : PyStr :=
  let t := pyStrip coreText
  let lower := pyLower t
  match canonCabinValue lower with
  | some cabin =>
      if hasSub (strL "class") lower || hasSub (strL "cabin") lower ||
          hasSub (strL "flights") lower then
        strL "Cabin class: " ++ cabin
      else canonicalizeRest t lower
  | none => canonicalizeRest t lower

/-- Match of `(travel\s+preference|preference)` at the head of lowered `s`,
returning the consumed length. -/
def matchWrapperWord (s : PyStr) : Option Nat :=
  if isPre (strL "travel") s then
    let r := s.drop 6
    let w := wsLen r
    if w != 0 && isPre (strL "preference") (r.drop w) then some (6 + w + 10)
    else if isPre (strL "preference") s then some 10
    else none
  else if isPre (strL "preference") s then some 10
  else none

/-- Length removed by `re.sub(r"^\s*(travel\s+preference|preference)\s*:\s*", ...)`. -/
def stripWrapperHeadLen (text : PyStr) : Nat :=
  let l := pyLower text
  let i0 := wsLen l
  match matchWrapperWord (l.drop i0) with
  | none => 0
  | some k =>
    let r := l.drop (i0 + k)
    let w1 := wsLen r
    match r.drop w1 with
    | ':' :: r2 => i0 + k + w1 + 1 + wsLen r2
    | _ => 0

/-- The trailing `\s*\(\s*type\s*:\s*[^)]+\)\s*$` annotation. -/
def typeAnnotationRE : RE :=
  rcat [rwsS, RE.chr '(', rwsS, rlit "type", rwsS, RE.chr ':', rwsS,
        rplus (RE.cls (fun c => c != ')')), RE.chr ')', rwsS]

/-- Remove a trailing type annotation (leftmost match reaching the end). -/
def stripTypeAnnotation (text : PyStr) : PyStr :=
  let l := pyLower text
  match (List.range (text.length + 1)).find? (fun i => reMatchesToEndAt typeAnnotationRE l i) with
  | some i => text.take i
  | none => text

/-- `MemoryManager._strip_preference_wrappers`. -/
def stripPreferenceWrappers (memoryText : PyStr) : PyStr :=
  let text := pyStrip memoryText
  let text := text.drop (stripWrapperHeadLen text)
  let text := stripTypeAnnotation text
  pyStrip text

/-! ### Resolver (`memory_manager.summarize_preferences`, include_ids=False)

Python dicts keyed by strings are association lists; Python sets are lists
queried only through membership. The fuzzy-memory layer is the list of
memory texts (`mem["memory"]`) returned by the external semantic store; the
structured layer is the list of rows returned by
`DatabaseStorage.list_preferences` (newest first). -/

/-- A string-keyed dict of lists of strings. -/
abbrev Dict := List (PyStr × List PyStr)

/-- `d.get(k, [])`. -/
def dictGet (d : Dict) (k : PyStr) : List PyStr :=
  match d.find? (fun kv => kv.1 == k) with
  | some kv => kv.2
  | none => []

/-- `k in d`. -/
def dictHas (d : Dict) (k : PyStr) : Bool := d.any (fun kv => kv.1 == k)

/-- `d[k] = v` (update in place, or append a fresh key). -/
def dictSet (d : Dict) (k : PyStr) (v : List PyStr) : Dict :=
  if dictHas d k then d.map (fun kv => if kv.1 == k then (k, v) else kv)
  else d ++ [(k, v)]

/-- `d[k].append(x)`. -/
def dictAppendVal (d : Dict) (k : PyStr) (x : PyStr) : Dict :=
  dictSet d k (dictGet d k ++ [x])

/-- Python `s.replace(needle, "")`, fuel-bounded left-to-right scan. -/
def replaceAllAux (needle : PyStr) : Nat → PyStr → PyStr
  | 0, s => s
  | _ + 1, [] => []
  | fuel + 1, c :: rest =>
      if !needle.isEmpty && isPre needle (c :: rest) then
        replaceAllAux needle fuel ((c :: rest).drop needle.length)
      else c :: replaceAllAux needle fuel rest

/-- Python `s.replace(needle, "")`. -/
def replaceAll (needle s : PyStr) : PyStr := replaceAllAux needle (s.length + 1) s

/-- `from\s+[A-Z]{3}\s+to\s+[A-Z]{3}.*with\s+\w+.*(?:USD|EUR|GBP|\$)` under
`re.IGNORECASE`, evaluated on lowered text. -/
def bookingRE1 : RE :=
  rcat [rlit "from", rwsP, ralpha, ralpha, ralpha, rwsP, rlit "to", rwsP,
        ralpha, ralpha, ralpha, rdotS, rlit "with", rwsP, rplus rw, rdotS,
        ralt [rlit "usd", rlit "eur", rlit "gbp", rlit "$"]]

/-- `flight\s+from\s+[A-Z]{3}\s+to\s+[A-Z]{3}` under `re.IGNORECASE`. -/
def bookingRE2 : RE :=
  rcat [rlit "flight", rwsP, rlit "from", rwsP, ralpha, ralpha, ralpha,
        rwsP, rlit "to", rwsP, ralpha, ralpha, ralpha]

/-- The currency markers checked case-sensitively on the raw text. -/
def currencyMarks : List PyStr := [strL "USD", strL "EUR", strL "$", strL "GBP"]

/-- Summary plus the per-category seen sets. -/
structure SumState where
  summary : Dict
  seen : Dict

/-- Append `entry` under `key` unless `displayLower` was already seen there. -/
def categorizeInto (st : SumState) (key displayLower entry : PyStr) : SumState :=
  if (dictGet st.seen key).contains displayLower then st
  else { summary := dictAppendVal st.summary key entry,
         seen := dictAppendVal st.seen key displayLower }

/-- Keywords of the passenger categorization branch. -/
def passengerCatKws : List PyStr :=
  [strL "traveling alone", strL "solo", strL "travel alone", strL "fly alone",
   strL "traveling with family", strL "traveling with kids",
   strL "traveling with children", strL "traveling with partner",
   strL "traveling with spouse", strL "family trip", strL "travel:"]

/-- City names of the location categorization branch. -/
def locationCities : List PyStr :=
  [strL "houston", strL "newyork", strL "los angeles", strL "london",
   strL "paris", strL "tokyo", strL "delhi", strL "mumbai", strL "kathmandu",
   strL "beijing", strL "chicago", strL "miami", strL "seattle", strL "boston",
   strL "denver", strL "dallas", strL "austin", strL "sanfrancisco"]

/-- Categorize one canonicalized memory (the big elif chain). -/
def categorizeMemory (st : SumState) (memoryLower displayLower entry : PyStr) : SumState :=
  if kwAny [strL "business", strL "economy", strL "premium", strL "first"] displayLower &&
      kwAny [strL "class", strL "cabin"] displayLower then
    categorizeInto st (strL "cabin_class") displayLower entry
  else if kwAny [strL "red-eye", strL "red eye", strL "red-eye:"] displayLower then
    categorizeInto st (strL "red_eye") displayLower entry
  else if kwAny [strL "round trip", strL "one-way", strL "round-trip", strL "one way",
      strL "trip type:"] displayLower then
    categorizeInto st (strL "trip_type") displayLower entry
  else if kwAny [strL "direct", strL "non-stop", strL "layover", strL "stop",
      strL "stops:"] displayLower then
    categorizeInto st (strL "flight_type") displayLower entry
  else if kwAny [strL "morning", strL "afternoon", strL "evening", strL "depart",
      strL "departure time:"] displayLower then
    categorizeInto st (strL "departure_time") displayLower entry
  else if kwAny passengerCatKws displayLower then
    categorizeInto st (strL "passenger") displayLower entry
  else if kwAny [strL "seat", strL "window", strL "aisle", strL "middle",
      strL "exit row", strL "seat:"] displayLower then
    categorizeInto st (strL "seat") displayLower entry
  else if kwAny [strL "airline", strL "carrier", strL "united", strL "delta",
      strL "american", strL "southwest", strL "jetblue", strL "alaska",
      strL "spirit", strL "frontier"] displayLower then
    categorizeInto st (strL "airline") displayLower entry
  else if kwAny [strL "baggage", strL "luggage", strL "bag", strL "carry-on",
      strL "checked", strL "baggage:"] displayLower then
    categorizeInto st (strL "baggage") displayLower entry
  else if kwAny [strL "budget", strL "price", strL "cost"] displayLower &&
      !hasSub (strL "general") displayLower &&
      !hasSub (strL "budget-conscious") displayLower then
    categorizeInto st (strL "budget") displayLower entry
  else if kwAny [strL "live", strL "based", strL "from", strL "home"] memoryLower &&
      kwAny locationCities memoryLower then
    categorizeInto st (strL "location") displayLower entry
  else
    categorizeInto st (strL "other") displayLower entry

/-- Process one fuzzy memory text (skips, canonicalization, categorization). -/
def processMemory (st : SumState) (memoryTextIn : PyStr) : SumState :=
  if memoryTextIn.isEmpty then st
  else
    let memoryText := pyStrip (replaceAll (strL " for general") memoryTextIn)
    if hasSub (strL "Type: General") memoryText ||
        isPre (strL "Travel Preference Type:") memoryText then st
    else
      let memoryLower := pyLower memoryText
      if hasSub (strL "booked") memoryLower || hasSub (strL "user booked") memoryLower then st
      else if hasSub (strL "searched") memoryLower ||
          hasSub (strL "user searched") memoryLower then st
      else if hasSub (strL "traveled") memoryLower ||
          hasSub (strL "user traveled") memoryLower then st
      else if hasSub (strL "travel history entry") memoryLower then st
      else if reSearch bookingRE1 memoryLower then st
      else if reSearch bookingRE2 memoryLower then st
      else if (hasSub (strL "→") memoryText &&
            (hasSub (strL "pm") memoryLower || hasSub (strL "am") memoryLower)) ||
          (kwAny currencyMarks memoryText && hasSub (strL "→") memoryText) then st
      else
        let coreText := stripPreferenceWrappers memoryText
        let displayText := canonicalizePreferenceText coreText
        categorizeMemory st memoryLower (pyLower displayText) displayText

/-- A row of the `preferences` table as returned by `list_preferences`. -/
structure DbRow where
  rowId : PyStr
  rtype : Option PyStr
  raw : Option PyStr
  canonical : Option PyStr
  deriving DecidableEq

/-- Python `(a or dflt)` for an optional string. -/
def pyOr (a : Option PyStr) (dflt : PyStr) : PyStr :=
  match a with
  | some s => if s.isEmpty then dflt else s
  | none => dflt

/-- `r.get("type") or "other"` (key of `latest_db_by_type`). -/
def dbRawType (r : DbRow) : PyStr := pyOr r.rtype (strL "other")

/-- First (newest) row of each type wins (`latest_db_by_type`). -/
def latestDbByType (rows : List DbRow) (t : PyStr) : Option DbRow :=
  rows.find? (fun r => dbRawType r == t)

/-- `canonical or raw`, both cleaned (the display text of a DB row). -/
def dbDisplay (r : DbRow) : PyStr :=
  let raw := pyStrip (pyOr r.raw [])
  let canonical := pyStrip (pyOr r.canonical [])
  if canonical.isEmpty then raw else canonical

/-- Keywords remapping untyped DB rows into the passenger bucket. -/
def passengerRemapKws : List PyStr :=
  [strL "travel: solo", strL "traveling alone", strL "travelling alone",
   strL "solo", strL "with family", strL "travel: with family",
   strL "with partner", strL "travel: with partner"]

/-- Merge one DB row into the summary (first DB loop). -/
def processDbRow (st : SumState) (r : DbRow) : SumState :=
  let prefType0 : PyStr :=
    match r.rtype with
    | none => strL "other"
    | some s => pyStrip (if s.isEmpty then strL "other" else s)
  let displayText := dbDisplay r
  let displayLower := pyLower (pyStrip displayText)
  if displayLower.isEmpty then st
  else
    let prefType :=
      if (prefType0 == strL "other" || prefType0 == strL "general" || prefType0.isEmpty) &&
          kwAny passengerRemapKws displayLower then strL "passenger"
      else prefType0
    let st1 : SumState :=
      { summary := if dictHas st.summary prefType then st.summary
                   else st.summary ++ [(prefType, [])],
        seen := if dictHas st.seen prefType then st.seen
                else st.seen ++ [(prefType, [])] }
    if (dictGet st1.seen prefType).contains displayLower then st1
    else { summary := dictAppendVal st1.summary prefType displayText,
           seen := dictAppendVal st1.seen prefType displayLower }

/-- The four mutually exclusive preference types. -/
def exclusiveTypeNames : List PyStr :=
  [strL "cabin_class", strL "departure_time", strL "trip_type", strL "passenger"]

/-- One step of the exclusive overwrite loop. -/
def owStep (rows : List DbRow) (s : Dict) (t : PyStr) : Dict :=
  match latestDbByType rows t with
  | none => s
  | some r =>
      let displayText := dbDisplay r
      if displayText.isEmpty then s else dictSet s t [displayText]

/-- Overwrite each exclusive category with the latest DB row only. -/
def overwriteExclusive (rows : List DbRow) (summary : Dict) : Dict :=
  exclusiveTypeNames.foldl (owStep rows) summary

/-- Hide generic "luxury" entries from `other` and `budget`. -/
def filterLuxury (summary : Dict) : Dict :=
  [strL "other", strL "budget"].foldl (fun s key =>
    dictSet s key ((dictGet s key).filter
      (fun item => !(hasSub (strL "luxury") (pyLower item))))) summary

/-- Remove empty categories (`{k: v for k, v in summary.items() if v}`). -/
def dropEmptyCategories (d : Dict) : Dict := d.filter (fun kv => !kv.2.isEmpty)

/-- The fixed initial summary keys, in insertion order. -/
def initSummaryKeys : List PyStr :=
  [strL "seat", strL "airline", strL "departure_time", strL "flight_type",
   strL "cabin_class", strL "red_eye", strL "trip_type", strL "passenger",
   strL "baggage", strL "routes", strL "budget", strL "location", strL "other"]

/-- The initial summary/seen dict with all categories empty. -/
def initDict : Dict := initSummaryKeys.map (fun k => (k, []))

/-- `MemoryManager.summarize_preferences` (include_ids=False): fuzzy layer,
then DB merge, then exclusive overwrite, then cleanup. -/
def summarizePreferences (memories : List PyStr) (dbRows : List DbRow) : Dict :=
  let st0 : SumState := { summary := initDict, seen := initDict }
  let st1 := memories.foldl processMemory st0
  let st2 := dbRows.foldl processDbRow st1
  let s3 := overwriteExclusive dbRows st2.summary
  dropEmptyCategories (filterLuxury s3)

/-! ### Preference store (`database.DatabaseStorage.add_preference`)

The `preferences` table is a list of rows; one `add_preference` call is one
state transition. The nondeterministic `uuid4()` / `datetime.now()` values
are inputs of the write descriptor. -/

/-- A persisted row of the `preferences` table. -/
structure PrefRow where
  rowId : PyStr
  userId : PyStr
  prefType : Option PyStr
  rawText : PyStr
  canonicalText : Option PyStr
  createdAt : PyStr
  deriving DecidableEq

/-- One call to `add_preference` (with its generated id/timestamp). -/
structure WriteOp where
  opId : PyStr
  now : PyStr
  userId : PyStr
  prefType : Option PyStr
  rawText : PyStr
  canonicalText : Option PyStr
  deriving DecidableEq

/-- `database._clean_text`: strip, empty becomes `None`. -/
def cleanText : Option PyStr → Option PyStr
  | none => none
  | some v =>
      let v := pyStrip v
      if v.isEmpty then none else some v

/-- Is the cleaned type one of the mutually exclusive categories? -/
def isExclusiveClean : Option PyStr → Bool
  | some t => exclusiveTypeNames.contains t
  | none => false

/-- `DatabaseStorage.add_preference`: delete-then-insert for exclusive
types; a blank raw text is rejected without touching the table. -/
def addPreference (db : List PrefRow) (w : WriteOp) : List PrefRow :=
  match cleanText (some w.rawText) with
  | none => db
  | some rawClean =>
      let typeClean := cleanText w.prefType
      let canonClean := cleanText w.canonicalText
      let db1 :=
        if isExclusiveClean typeClean then
          db.filter (fun r => !(r.userId == w.userId && r.prefType == typeClean))
        else db
      db1 ++ [⟨w.opId, w.userId, typeClean, rawClean, canonClean, w.now⟩]

/-- Apply a sequence of writes to a table state. -/
def applyWrites (db : List PrefRow) (ws : List WriteOp) : List PrefRow :=
  ws.foldl addPreference db

/-- The live rows of one `(userId, category)` pair. -/
def rowsFor (db : List PrefRow) (u t : PyStr) : List PrefRow :=
  db.filter (fun r => r.userId == u && r.prefType == some t)

/-! ### Pattern extractor (`agent.extract_preferences_from_message`) -/

/-- `s?`. -/
def rS : RE := ropt (RE.chr 's')

/-- Literal `don't`. -/
def reDontTight : RE := rcat [rlit "don", RE.chr apos, rlit "t"]

/-- `don\s*'?t`. -/
def reDontLoose : RE := rcat [rlit "don", rwsS, ropt (RE.chr apos), rlit "t"]

/-- `(?:hate|avoid|don\s*'?t\s+like|do\s+not\s+like)`. -/
def reTimeAvoid : RE :=
  ralt [rlit "hate", rlit "avoid", rcat [reDontLoose, rwsP, rlit "like"],
        rcat [rlit "do", rwsP, rlit "not", rwsP, rlit "like"]]

/-- `(?:window|aisle|exit\s+row)`. -/
def reSeatKind : RE :=
  ralt [rlit "window", rlit "aisle", rcat [rlit "exit", rwsP, rlit "row"]]

/-- The airline alternation of the "preferred airline" pattern. -/
def reAirlines1 : RE :=
  ralt [rlit "united", rlit "american", rlit "delta", rlit "southwest",
        rlit "jetblue", rlit "alaska", rlit "spirit", rlit "frontier",
        rlit "southwest"]

/-- The airline alternation of the "avoid airline" pattern. -/
def reAirlines2 : RE :=
  ralt [rlit "united", rlit "american", rlit "delta", rlit "southwest",
        rlit "jetblue", rlit "alaska", rlit "spirit", rlit "frontier"]

/-- `(?:in\s+the\s+)?`. -/
def reInThe : RE := ropt (rcat [rlit "in", rwsP, rlit "the", rwsP])

/-- `(?:i\s+)?`. -/
def reIOpt : RE := ropt (rcat [rlit "i", rwsP])

/-- The seat pattern group. -/
def seatPatterns : List (RE × PyStr) :=
  [(rcat [reIOpt, ralt [rlit "prefer", rlit "want", rlit "need"], rwsP,
      reSeatKind, rwsP, rlit "seat", rS], strL "window/aisle/exit row"),
   (rcat [ralt [rlit "no", rlit "avoid", rcat [reDontTight, rwsP, rlit "like"], rlit "hate"],
      rwsP, ralt [rlit "middle", rlit "center"], rwsP, rlit "seat", rS],
    strL "avoid middle seats"),
   (rcat [reSeatKind, rwsP, rlit "seat", rS], strL "window/aisle/exit row seats")]

/-- The airline pattern group. -/
def airlinePatterns : List (RE × PyStr) :=
  [(rcat [reIOpt, ralt [rlit "prefer", rlit "fly", rlit "love"], rwsP,
      ropt (rcat [rlit "with", rwsP]), reAirlines1], strL "preferred airline"),
   (rcat [ralt [rlit "avoid", rcat [reDontTight, rwsP, rlit "like"], rlit "hate"],
      rwsP, reAirlines2], strL "avoid airline")]

/-- The time pattern group (avoidance first, then positives). -/
def timePatterns : List (RE × PyStr) :=
  [(rcat [reTimeAvoid, rwsP, ropt (rcat [rlit "flying", rwsP]), reInThe,
      rlit "morning", rS, RE.bnd], strL "Avoid morning flights"),
   (rcat [reTimeAvoid, rwsP, ropt (rcat [rlit "flying", rwsP]), reInThe,
      rlit "afternoon", rS, RE.bnd], strL "Avoid afternoon flights"),
   (rcat [reTimeAvoid, rwsP, ropt (rcat [rlit "flying", rwsP]), reInThe,
      rlit "evening", rS, RE.bnd], strL "Avoid evening flights"),
   (rcat [reTimeAvoid, rwsP, ropt (rcat [rlit "early", rwsP]),
      rlit "morning", rwsP, rlit "flight", rS], strL "Avoid morning flights"),
   (rcat [reTimeAvoid, rwsP, rlit "afternoon", rwsP, rlit "flight", rS],
    strL "Avoid afternoon flights"),
   (rcat [reTimeAvoid, rwsP, ropt (rcat [rlit "late", rwsP]),
      rlit "evening", rwsP, rlit "flight", rS], strL "Avoid evening flights"),
   (rcat [reIOpt, ralt [rlit "prefer", rlit "like", rlit "love", rlit "want"], rwsP,
      ropt (rcat [rlit "to", rwsP]), ralt [rlit "fly", rlit "flying"], rwsP,
      reInThe, rlit "morning", rS, RE.bnd], strL "morning flights"),
   (rcat [reIOpt, ralt [rlit "prefer", rlit "like", rlit "love", rlit "want"], rwsP,
      ropt (rcat [rlit "to", rwsP]), ralt [rlit "fly", rlit "flying"], rwsP,
      reInThe, rlit "afternoon", rS, RE.bnd], strL "afternoon flights"),
   (rcat [reIOpt, ralt [rlit "prefer", rlit "like", rlit "love", rlit "want"], rwsP,
      ropt (rcat [rlit "to", rwsP]), ralt [rlit "fly", rlit "flying"], rwsP,
      reInThe, rlit "evening", rS, RE.bnd], strL "evening flights"),
   (rcat [ropt (rcat [rlit "early", rwsP]), rlit "morning", rwsP, rlit "flight", rS],
    strL "morning flights"),
   (rcat [rlit "late", rwsP, rlit "evening", rwsP, rlit "flight", rS],
    strL "evening flights"),
   (rcat [rlit "afternoon", rwsP, rlit "flight", rS], strL "afternoon flights"),
   (rcat [ralt [rlit "prefer", rlit "want"], rwsP,
      ralt [rlit "early", rlit "late", rlit "morning", rlit "afternoon", rlit "evening"],
      rwsP, rlit "departure", rS], strL "preferred departure time"),
   (rcat [RE.bnd, reInThe, rlit "morning", rS, RE.bnd], strL "morning flights")]

/-- The flight-type pattern group. -/
def flightPatterns : List (RE × PyStr) :=
  [(rcat [ropt (ralt [rlit "find", rcat [rlit "search", rwsP, rlit "for"],
      rlit "want", rlit "need"]), rwsS, rlit "direct", rwsP, rlit "flight", rS],
    strL "direct flights"),
   (rcat [rlit "non", ropt (RE.chr '-'), rlit "stop", rwsP,
      ropt (ralt [rlit "only", rlit "flights", rlit "preferred"])],
    strL "non-stop flights"),
   (rcat [ralt [rlit "no", rlit "avoid"], rwsP, rlit "layover", rS],
    strL "avoid layovers"),
   (rcat [ropt (rcat [reDontTight, rwsP]), ralt [rlit "mind", rcat [rlit "ok", rwsP, rlit "with"]],
      rwsP, ropt (ralt [rlit "one", rlit "1", rlit "multiple", rlit "some"]), rwsS,
      rlit "layover", rS], strL "willing to take layovers")]

/-- The passenger pattern group. -/
def passengerPatterns : List (RE × PyStr) :=
  [(rcat [reIOpt, ropt (rcat [rlit "travel", rwsP]), ralt [rlit "alone", rlit "solo"]],
    strL "traveling alone"),
   (rcat [ropt (rcat [rlit "with", rwsP]), ralt [rlit "family", rlit "kids", rlit "children"]],
    strL "traveling with family"),
   (rcat [ropt (rcat [rlit "with", rwsP]),
      ralt [rlit "partner", rlit "spouse", rcat [rlit "significant", rwsP, rlit "other"]]],
    strL "traveling with partner")]

/-- The baggage pattern group. -/
def baggagePatterns : List (RE × PyStr) :=
  [(ralt [rcat [ropt (rcat [rlit "light", rwsP]), rlit "packer"],
      rcat [rlit "minimal", rwsP, rlit "baggage"]], strL "light packer"),
   (rcat [ralt [rlit "need", rlit "require"], rwsP, ralt [rlit "extra", rlit "checked"],
      rwsP, rlit "baggage"], strL "extra baggage needed"),
   (rcat [rlit "cabin", rwsP, rlit "baggage", rwsP, rlit "only"], strL "carry-on only")]

/-- The budget pattern group (stability markers only). -/
def budgetPatterns : List (RE × PyStr) :=
  [(rcat [RE.bnd,
      ralt [rcat [rlit "on", rwsP, rlit "a", rwsP, rlit "budget"],
            rcat [rlit "tight", rwsP, rlit "budget"],
            rcat [rlit "budget", ropt (RE.cls (fun c => c == '-' || isPySpace c)), rlit "friendly"],
            rcat [rlit "budget", ropt (RE.cls (fun c => c == '-' || isPySpace c)), rlit "conscious"],
            rcat [rlit "as", rwsP, rlit "cheap", rwsP, rlit "as", rwsP, rlit "possible"],
            rcat [rlit "cheapest", rwsP, rlit "possible"]],
      RE.bnd], strL "budget conscious")]

/-- The red-eye pattern group. -/
def redEyePatterns : List (RE × PyStr) :=
  [(rcat [rlit "red", rwsS, ropt (RE.chr '-'), rlit "eye"], strL "Avoid red-eye flights"),
   (rlit "redeye", strL "Avoid red-eye flights"),
   (rcat [reTimeAvoid, rwsP, rdotS, rlit "red", rwsS, ropt (RE.chr '-'), rlit "eye"],
    strL "Avoid red-eye flights")]

/-- The cabin-class pattern group. -/
def cabinPatterns : List (RE × PyStr) :=
  [(rcat [rlit "premium", rwsP, rlit "economy"], strL "I prefer Premium Economy class flights"),
   (rcat [RE.bnd, rlit "business", RE.bnd], strL "I prefer Business class flights"),
   (rcat [RE.bnd, rlit "first", RE.bnd], strL "I prefer First Class flights"),
   (rcat [RE.bnd, rlit "economy", RE.bnd], strL "I prefer Economy class flights")]

/-- The pattern groups in evaluation order. -/
def allPatterns : List (List (RE × PyStr)) :=
  [seatPatterns, airlinePatterns, timePatterns, flightPatterns,
   passengerPatterns, baggagePatterns, budgetPatterns, redEyePatterns,
   cabinPatterns]

/-- Remove duplicates, preserving first-seen order. -/
def dedupKeepFirst (l : List PyStr) : List PyStr :=
  l.foldl (fun acc p => if acc.contains p then acc else acc ++ [p]) []

/-- The three time buckets. -/
def bucketNames : List PyStr := [strL "morning", strL "afternoon", strL "evening"]

/-- Buckets whose avoidance was extracted (labels starting `"avoid "`). -/
def avoidBuckets (prefs : List PyStr) : List PyStr :=
  prefs.flatMap (fun p =>
    let pl := pyLower p
    if isPre (strL "avoid ") pl then bucketNames.filter (fun b => hasSub b pl) else [])

/-- The positive time labels that may be dropped. -/
def positiveTimeLabels : List PyStr :=
  [strL "morning flights", strL "afternoon flights", strL "evening flights"]

/-- Contradiction resolution: avoidance wins over positive time labels. -/
def resolveContradictions (msgLower : PyStr) (prefs : List PyStr) : List PyStr :=
  let ab := avoidBuckets prefs
  if ab.isEmpty then prefs
  else prefs.filter (fun p =>
    let pl := pyLower p
    if positiveTimeLabels.contains pl then ab.all (fun b => !(hasSub b pl))
    else if pl == strL "preferred departure time" &&
        ab.any (fun b => hasSub b msgLower) then false
    else true)

/-- `agent.extract_preferences_from_message`. -/
def extractPreferencesFromMessage (userMessage : PyStr) : List PyStr :=
  let messageLower := pyLower userMessage
  let preferences := (allPatterns.flatMap id).filterMap (fun row =>
    if reSearch row.1 messageLower then some row.2 else none)
  let uniquePrefs := dedupKeepFirst preferences
  resolveContradictions messageLower uniquePrefs

/-! ### Search parameter compiler (`agent.get_preference_overrides` and the
`search_flights` branch of `agent.execute_tool`)

The `user_preferences` payload dict is modelled as a record of the keys the
consumers read; a key that was never set carries its falsy default. The
`overrides` dict keys `adults` / `travel_class` / `non_stop` are `Option`
fields (`none` = key absent). -/

/-- The post-filtering preference payload handed to the Amadeus client. -/
structure UserPrefs where
  avoidedAirlines : List PyStr := []
  preferredAirlines : List PyStr := []
  maxStops : Option Int := none
  departureTimePreferences : List PyStr := []
  avoidRedEye : Bool := false
  nonStopOnly : Bool := false
  preferredCabin : Option PyStr := none
  maxPrice : Option Nat := none

/-- Truthiness of the payload dict (a key is present iff non-default). -/
def userPrefsTruthy (up : UserPrefs) : Bool :=
  !up.avoidedAirlines.isEmpty || !up.preferredAirlines.isEmpty ||
  up.maxStops.isSome || !up.departureTimePreferences.isEmpty ||
  up.avoidRedEye || up.nonStopOnly || up.preferredCabin.isSome || up.maxPrice.isSome

/-- The current-request UI preference snapshot. -/
structure CurrentPrefs where
  cabinClass : Option PyStr := none
  directFlightsOnly : Option Bool := none
  avoidRedEye : Option Bool := none

/-- The `overrides` dict built by `get_preference_overrides`. -/
structure Overrides where
  adults : Option Nat := none
  travelClass : Option PyStr := none
  nonStop : Option Bool := none
  timePreference : Option PyStr := none
  appliedPrefs : List PyStr := []
  userPreferences : UserPrefs := {}
  appliedSummary : Option PyStr := none

/-- UI cabin-class selection (`current_preferences.get("cabinClass")`). -/
def uiCabinStep (c : CurrentPrefs) (o : Overrides) : Overrides :=
  match c.cabinClass with
  | some cabin =>
      if (pyStrip cabin).isEmpty then o
      else
        let cabinL := pyLower (pyStrip cabin)
        if hasSub (strL "first") cabinL then
          { o with travelClass := some (strL "FIRST"),
                   appliedPrefs := o.appliedPrefs ++ [strL "First Class (current selection)"] }
        else if hasSub (strL "business") cabinL then
          { o with travelClass := some (strL "BUSINESS"),
                   appliedPrefs := o.appliedPrefs ++ [strL "Business Class (current selection)"] }
        else if hasSub (strL "premium") cabinL then
          { o with travelClass := some (strL "PREMIUM_ECONOMY"),
                   appliedPrefs := o.appliedPrefs ++ [strL "Premium Economy (current selection)"] }
        else if hasSub (strL "economy") cabinL then
          { o with travelClass := some (strL "ECONOMY"),
                   appliedPrefs := o.appliedPrefs ++ [strL "Economy (current selection)"] }
        else o
  | none => o

/-- UI direct-flights flag. -/
def uiDirectStep (c : CurrentPrefs) (o : Overrides) : Overrides :=
  if c.directFlightsOnly == some true then
    { o with nonStop := some true,
             appliedPrefs := o.appliedPrefs ++ [strL "direct/non-stop (current selection)"] }
  else o

/-- UI red-eye avoidance flag. -/
def uiRedEyeStep (c : CurrentPrefs) (o : Overrides) : Overrides :=
  if c.avoidRedEye == some true then
    { o with userPreferences := { o.userPreferences with avoidRedEye := true },
             appliedPrefs := o.appliedPrefs ++ [strL "avoid red-eye flights (current selection)"] }
  else o

/-- "Apply current UI preferences first (highest priority)". -/
def applyUiPreferences (cur : Option CurrentPrefs) (o : Overrides) : Overrides :=
  match cur with
  | none => o
  | some c => uiRedEyeStep c (uiDirectStep c (uiCabinStep c o))

/-- `prefs.get("seat_preferences") or prefs.get("passenger") or
prefs.get("passenger_preferences") or []`. -/
def passengerItems (prefs : Dict) : List PyStr :=
  let a := dictGet prefs (strL "seat_preferences")
  if !a.isEmpty then a
  else
    let b := dictGet prefs (strL "passenger")
    if !b.isEmpty then b else dictGet prefs (strL "passenger_preferences")

/-- "Check for passenger preferences". -/
def applyPassengerPreferences (prefs : Dict) (o : Overrides) : Overrides :=
  let items := passengerItems prefs
  if items.isEmpty then o
  else
    let seatText := pyLower (joinSpace items)
    if hasSub (strL "alone") seatText || hasSub (strL "solo") seatText then
      { o with adults := some 1, appliedPrefs := o.appliedPrefs ++ [strL "traveling alone"] }
    else if hasSub (strL "2") seatText || hasSub (strL "couple") seatText then
      { o with adults := some 2, appliedPrefs := o.appliedPrefs ++ [strL "2 passengers"] }
    else if hasSub (strL "family") seatText || hasSub (strL "kids") seatText ||
        hasSub (strL "children") seatText then
      { o with adults := some 4, appliedPrefs := o.appliedPrefs ++ [strL "family travel"] }
    else o

/-- Truthiness of `overrides.get("travel_class")`. -/
def travelClassTruthy (o : Overrides) : Bool :=
  match o.travelClass with
  | some s => !s.isEmpty
  | none => false

/-- `prefs.get("cabin_class_preferences") or prefs.get("cabin_class") or []`. -/
def cabinItems (prefs : Dict) : List PyStr :=
  let a := dictGet prefs (strL "cabin_class_preferences")
  if !a.isEmpty then a else dictGet prefs (strL "cabin_class")

/-- "Check for cabin class preferences", only if the UI did not set one. -/
def applyCabinPreferences (prefs : Dict) (o : Overrides) : Overrides :=
  let items := cabinItems prefs
  if !travelClassTruthy o && !items.isEmpty then
    let cabinText := pyLower (joinSpace items)
    if hasSub (strL "first") cabinText && hasSub (strL "class") cabinText then
      { o with travelClass := some (strL "FIRST"),
               appliedPrefs := o.appliedPrefs ++ [strL "First Class preference"] }
    else if hasSub (strL "business") cabinText then
      { o with travelClass := some (strL "BUSINESS"),
               appliedPrefs := o.appliedPrefs ++ [strL "Business Class preference"] }
    else if hasSub (strL "premium") cabinText then
      { o with travelClass := some (strL "PREMIUM_ECONOMY"),
               appliedPrefs := o.appliedPrefs ++ [strL "Premium Economy preference"] }
    else if hasSub (strL "economy") cabinText then
      { o with travelClass := some (strL "ECONOMY"),
               appliedPrefs := o.appliedPrefs ++ [strL "Economy preference"] }
    else o
  else o

/-- `prefs.get("flight_type_preferences") or prefs.get("flight_type") or []`. -/
def flightItems (prefs : Dict) : List PyStr :=
  let a := dictGet prefs (strL "flight_type_preferences")
  if !a.isEmpty then a else dictGet prefs (strL "flight_type")

/-- "Check for direct flight preferences", only if the UI did not set it. -/
def applyFlightTypePreferences (prefs : Dict) (o : Overrides) : Overrides :=
  let items := flightItems prefs
  if o.nonStop == none && !items.isEmpty then
    let flightText := pyLower (joinSpace items)
    if hasSub (strL "direct") flightText || hasSub (strL "non-stop") flightText then
      { o with nonStop := some true,
               appliedPrefs := o.appliedPrefs ++ [strL "direct/non-stop preference"] }
    else o
  else o

/-- `prefs.get("red_eye_preferences") or prefs.get("red_eye") or []`. -/
def redEyeItems (prefs : Dict) : List PyStr :=
  let a := dictGet prefs (strL "red_eye_preferences")
  if !a.isEmpty then a else dictGet prefs (strL "red_eye")

/-- "Check for red-eye avoidance", only if the UI did not set it. -/
def applyRedEyePreferences (prefs : Dict) (o : Overrides) : Overrides :=
  if o.userPreferences.avoidRedEye then o
  else
    let redEyeText := pyLower (joinSpace (redEyeItems prefs))
    if !redEyeText.isEmpty && hasSub (strL "red") redEyeText &&
        hasSub (strL "eye") redEyeText then
      { o with userPreferences := { o.userPreferences with avoidRedEye := true },
               appliedPrefs := o.appliedPrefs ++ [strL "avoid red-eye flights preference"] }
    else o

/-- `prefs.get("time_preferences") or prefs.get("departure_time") or []`. -/
def timeItems (prefs : Dict) : List PyStr :=
  let a := dictGet prefs (strL "time_preferences")
  if !a.isEmpty then a else dictGet prefs (strL "departure_time")

/-- "Check for time/departure preferences". -/
def applyTimePreferences (prefs : Dict) (o : Overrides) : Overrides :=
  let items := timeItems prefs
  if items.isEmpty then o
  else
    let timeText := pyLower (joinSpace items)
    if timeText.isEmpty then o
    else
      let o := { o with timePreference := some timeText,
                        userPreferences :=
                          { o.userPreferences with departureTimePreferences := [timeText] } }
      if kwAny [strL "avoid", strL "hate", dontLikeKw, strL "do not like"] timeText then
        if hasSub (strL "morning") timeText then
          { o with appliedPrefs := o.appliedPrefs ++ [strL "avoid morning flights"] }
        else if hasSub (strL "afternoon") timeText then
          { o with appliedPrefs := o.appliedPrefs ++ [strL "avoid afternoon flights"] }
        else if hasSub (strL "evening") timeText then
          { o with appliedPrefs := o.appliedPrefs ++ [strL "avoid evening flights"] }
        else
          { o with appliedPrefs := o.appliedPrefs ++ [strL "avoid time preference: " ++ timeText] }
      else if hasSub (strL "morning") timeText then
        { o with appliedPrefs := o.appliedPrefs ++ [strL "morning flights"] }
      else if hasSub (strL "afternoon") timeText then
        { o with appliedPrefs := o.appliedPrefs ++ [strL "afternoon flights"] }
      else if hasSub (strL "evening") timeText then
        { o with appliedPrefs := o.appliedPrefs ++ [strL "evening flights"] }
      else
        { o with appliedPrefs := o.appliedPrefs ++ [strL "time preference: " ++ timeText] }

/-- Build the `applied_prefs_summary` field. -/
def finalizeOverrides (o : Overrides) : Overrides :=
  { o with appliedSummary :=
      if o.appliedPrefs.isEmpty then none
      else some (joinSep (strL " & ") o.appliedPrefs) }

/-- `agent.get_preference_overrides` as a function of the preference summary
and the current-request UI preferences. -/
def getPreferenceOverrides (prefs : Dict) (cur : Option CurrentPrefs) : Overrides :=
  finalizeOverrides
    (applyTimePreferences prefs
      (applyRedEyePreferences prefs
        (applyFlightTypePreferences prefs
          (applyCabinPreferences prefs
            (applyPassengerPreferences prefs
              (applyUiPreferences cur {}))))))

/-- Tool-call arguments of `search_flights` (a missing key is `none`; the
string-coercion of a JSON-string `non_stop` is outside the value domain). -/
structure ToolArgs where
  origin : PyStr := []
  destination : PyStr := []
  departureDate : Option PyStr := none
  returnDate : Option PyStr := none
  adults : Option Nat := none
  travelClass : Option PyStr := none
  nonStop : Option Bool := none

/-- The query parameters actually sent to the flight-offers endpoint. -/
structure SentParams where
  originLocationCode : PyStr
  destinationLocationCode : PyStr
  departureDate : Option PyStr
  returnDate : Option PyStr
  adults : Nat
  travelClass : Option PyStr
  nonStop : Bool

/-- Truthiness of an optional string. -/
def optStrTruthy : Option PyStr → Bool
  | some s => !s.isEmpty
  | none => false

/-- `if travel_class: params["travelClass"] = travel_class`: the parameter
is present only when the value is truthy. -/
def sentTravelClass : Option PyStr → Option PyStr
  | some s => if s.isEmpty then none else some s
  | none => none

/-- Parameter assembly of `AmadeusClient.search_flights` (the
`user_preferences` mutations followed by the `params` dict). -/
def amadeusSearchParams (origin destination : PyStr)
    (departureDate returnDate : Option PyStr) (adults : Nat)
    (travelClass : Option PyStr) (nonStop : Bool)
    (userPreferences : UserPrefs) : SentParams :=
  let nonStop :=
    if userPrefsTruthy userPreferences && userPreferences.nonStopOnly then true
    else nonStop
  let travelClass :=
    if userPrefsTruthy userPreferences && !optStrTruthy travelClass &&
        (userPreferences.preferredCabin).isSome then userPreferences.preferredCabin
    else travelClass
  { originLocationCode := pyUpper origin,
    destinationLocationCode := pyUpper destination,
    departureDate := departureDate,
    returnDate := returnDate,
    adults := adults,
    travelClass := sentTravelClass travelClass,
    nonStop := nonStop }

/-- The parameter flow of the `search_flights` branch of
`agent.execute_tool`: caller arguments, then overrides, then the Amadeus
parameter assembly. -/
def executeSearchFlightsParams (args : ToolArgs) (prefs : Dict)
    (cur : Option CurrentPrefs) : SentParams :=
  let origin := pyUpper args.origin
  let destination := pyUpper args.destination
  let adults := args.adults.getD 1
  let travelClass := args.travelClass
  let nonStop := args.nonStop.getD false
  let o := getPreferenceOverrides prefs cur
  let adults := o.adults.getD adults
  let travelClass := match o.travelClass with
    | some t => some t
    | none => travelClass
  let nonStop := o.nonStop.getD nonStop
  amadeusSearchParams origin destination args.departureDate args.returnDate
    adults travelClass nonStop o.userPreferences

/-! ### Flight offers: ranking/tagging and post-filters
(`amadeus_client.tag_flight_offers`, `_matches_departure_preferences`,
`_is_red_eye`, `_filter_flights_by_preferences`)

A processed offer dict is a record with `Option` fields where a missing key
raises `KeyError` (`o["price"]["total"]`, `itin["duration"]`); the float
arithmetic of the scoring is modelled by exact fractions (`Frac`, an
integer numerator over a positive integer denominator, compared by
cross-multiplication) — exact on the compared quantities. Caught exceptions
(`try/except`) are the `none` branches of the parsers. -/

/-- An exact fraction (denominators are kept positive by construction). -/
structure Frac where
  num : Int
  den : Int
  deriving DecidableEq

/-- A natural number as a fraction. -/
def natFrac (n : Nat) : Frac := ⟨n, 1⟩

/-- Fraction subtraction. -/
def Frac.sub (a b : Frac) : Frac := ⟨a.num * b.den - b.num * a.den, a.den * b.den⟩

/-- Fraction addition. -/
def Frac.add (a b : Frac) : Frac := ⟨a.num * b.den + b.num * a.den, a.den * b.den⟩

/-- Fraction multiplication. -/
def Frac.mul (a b : Frac) : Frac := ⟨a.num * b.num, a.den * b.den⟩

/-- Fraction division (sign moved to keep the denominator positive). -/
def Frac.div (a b : Frac) : Frac :=
  if b.num < 0 then ⟨-(a.num * b.den), -(a.den * b.num)⟩
  else ⟨a.num * b.den, a.den * b.num⟩

/-- Value comparison `a < b` (valid for positive denominators). -/
def Frac.blt (a b : Frac) : Bool := decide (a.num * b.den < b.num * a.den)

/-- Value equality (valid for positive denominators). -/
def Frac.beqv (a b : Frac) : Bool := decide (a.num * b.den = b.num * a.den)

/-- Python falsiness of a float (`== 0`). -/
def Frac.isZero (a : Frac) : Bool := a.num == 0

/-- Python `min` over a fold (first minimum wins; value use only). -/
def fracMinList : List Frac → Option Frac
  | [] => none
  | x :: xs => some (xs.foldl (fun m v => if Frac.blt v m then v else m) x)

/-- Python `max` over a fold. -/
def fracMaxList : List Frac → Option Frac
  | [] => none
  | x :: xs => some (xs.foldl (fun m v => if Frac.blt m v then v else m) x)

/-- A processed flight segment. -/
structure Segment where
  departureAt : PyStr := []
  carrierCode : PyStr := []
  deriving DecidableEq

/-- A processed itinerary. -/
structure Itinerary where
  duration : Option PyStr := none
  segments : List Segment := []
  deriving DecidableEq

/-- A processed flight offer. -/
structure FlightOffer where
  offerId : PyStr := []
  priceTotal : Option Frac := none
  itineraries : Option (List Itinerary) := none
  deriving DecidableEq

/-- Numeric value of a digit run. -/
def digitsToNat (ds : PyStr) : Nat := ds.foldl (fun acc c => 10 * acc + (c.toNat - 48)) 0

/-- One optional group `(\d+X)?` of the duration regex: a digit run followed
by the marker, or no consumption at all. -/
def grpNum (marker : Char) (s : PyStr) : Option (Nat × PyStr) :=
  let ds := s.takeWhile Char.isDigit
  if ds.isEmpty then none
  else
    match s.drop ds.length with
    | d :: rest => if d == marker then some (digitsToNat ds, rest) else none
    | [] => none

/-- `re.match(r'PT(\d+H)?(\d+M)?', duration)`: `none` iff the string does
not start with `PT` (then the itinerary contributes no minutes). -/
def ptMinutes : PyStr → Option Nat
  | 'P' :: 'T' :: rest =>
      let step1 := match grpNum 'H' rest with
        | some (n, r) => (n, r)
        | none => (0, rest)
      let m := match grpNum 'M' step1.2 with
        | some (n, _) => n
        | none => 0
      some (step1.1 * 60 + m)
  | _ => none

/-- Total minutes of one offer; `KeyError` on a missing key. -/
def offerMinutes (o : FlightOffer) : Except PyStr Nat :=
  match o.itineraries with
  | none => Except.error (strL "KeyError: itineraries")
  | some its =>
      its.foldl (fun acc itin =>
        match acc with
        | Except.error e => Except.error e
        | Except.ok n =>
            match itin.duration with
            | none => Except.error (strL "KeyError: duration")
            | some d => Except.ok (n + (match ptMinutes d with
                | some m => m
                | none => 0)))
        (Except.ok 0)

/-- The `prices` comprehension; `KeyError` on a missing price. -/
def collectPrices : List FlightOffer → Except PyStr (List Frac)
  | [] => Except.ok []
  | o :: rest =>
      match o.priceTotal with
      | none => Except.error (strL "KeyError: price")
      | some p =>
          match collectPrices rest with
          | Except.error e => Except.error e
          | Except.ok ps => Except.ok (p :: ps)

/-- The `durations` loop. -/
def collectDurations : List FlightOffer → Except PyStr (List Nat)
  | [] => Except.ok []
  | o :: rest =>
      match offerMinutes o with
      | Except.error e => Except.error e
      | Except.ok n =>
          match collectDurations rest with
          | Except.error e => Except.error e
          | Except.ok ns => Except.ok (n :: ns)

/-- Helper of `argminIdx`: fold keeping the first strict minimum. -/
def argminFrom (lt : α → α → Bool) : Nat × α → Nat → List α → Nat × α
  | best, _, [] => best
  | best, i, v :: rest =>
      argminFrom lt (if lt v best.2 then (i, v) else best) (i + 1) rest

/-- Index of the minimum (ties broken by first occurrence, as Python `min`). -/
def argminIdx (lt : α → α → Bool) : List α → Nat
  | [] => 0
  | v :: rest => (argminFrom lt (0, v) 1 rest).1

/-- Minimum of a list of naturals (Python `min`). -/
def minList : List Nat → Option Nat
  | [] => none
  | x :: xs => some (xs.foldl min x)

/-- Maximum of a list of naturals (Python `max`). -/
def maxList : List Nat → Option Nat
  | [] => none
  | x :: xs => some (xs.foldl max x)

/-- The `best` selection loop (`best_score = inf` is the `none` start). -/
def bestIdxCalc (scores : List Frac) : Nat :=
  (scores.foldl (fun (st : Option Frac × Nat × Nat) sc =>
      match st.1 with
      | none => (some sc, st.2.2, st.2.2 + 1)
      | some b =>
          if Frac.blt sc b then (some sc, st.2.2, st.2.2 + 1)
          else (some b, st.2.1, st.2.2 + 1)) (none, 0, 0)).2.1

/-- The weighted normalized scores (`0.6 * price_norm + 0.4 * dur_norm`). -/
def tagScores (prices : List Frac) (durs : List Nat) : List Frac :=
  let pmin : Frac := match fracMinList prices with
    | some v => v
    | none => natFrac 0
  let pmax0 : Frac := match fracMaxList prices with
    | some v => v
    | none => natFrac 0
  let pmax := if pmax0.isZero then pmin.add (natFrac 1) else pmax0
  let dmin : Frac := match minList durs with
    | some v => natFrac v
    | none => natFrac 0
  let dmax0 : Frac := match maxList durs with
    | some v => natFrac v
    | none => natFrac 0
  let dmax := if dmax0.isZero then dmin.add (natFrac 1) else dmax0
  List.zipWith (fun (p : Frac) (d : Nat) =>
    let pn := if !(pmax.beqv pmin) then (p.sub pmin).div (pmax.sub pmin) else natFrac 0
    let dn := if !(dmax.beqv dmin) then ((natFrac d).sub dmin).div (dmax.sub dmin)
              else natFrac 0
    ((⟨3, 5⟩ : Frac).mul pn).add ((⟨2, 5⟩ : Frac).mul dn)) prices durs

/-- `AmadeusClient.tag_flight_offers`: each offer paired with its tags. -/
def tagFlightOffers (offers : List FlightOffer) :
    Except PyStr (List (FlightOffer × List PyStr)) :=
  if offers.isEmpty then Except.ok []
  else
    match collectPrices offers with
    | Except.error e => Except.error e
    | Except.ok prices =>
        match collectDurations offers with
        | Except.error e => Except.error e
        | Except.ok durs =>
            let cheapestIdx := argminIdx Frac.blt prices
            let fastestIdx := argminIdx (fun a b : Nat => decide (a < b)) durs
            let bestIdx := bestIdxCalc (tagScores prices durs)
            let withBest := bestIdx != cheapestIdx && bestIdx != fastestIdx
            Except.ok (offers.mapIdx (fun i o =>
              (o, (if i == cheapestIdx then [strL "cheapest"] else []) ++
                  (if i == fastestIdx then [strL "fastest"] else []) ++
                  (if withBest && i == bestIdx then [strL "best"] else []))))

/-- Well-formedness of Python `int` digits (underscores between digits). -/
def digitsTailOk : PyStr → Bool
  | [] => true
  | '_' :: rest =>
      match rest with
      | d :: r => d.isDigit && digitsTailOk r
      | [] => false
  | d :: rest => d.isDigit && digitsTailOk rest

/-- Python `int(s)` for a decimal literal; `none` models `ValueError`. -/
def pyInt (s : PyStr) : Option Int :=
  let t := pyStrip s
  let signDigits : Int × PyStr :=
    match t with
    | '+' :: r => (1, r)
    | '-' :: r => (-1, r)
    | r => (1, r)
  match signDigits.2 with
  | [] => none
  | d :: rest =>
      if d.isDigit && digitsTailOk rest then
        some (signDigits.1 * (digitsToNat ((d :: rest).filter (fun c => c != '_')) : Int))
      else none

/-- `int(departure_time_str.split("T")[1].split(":")[0])`; `none` models the
caught `IndexError`/`ValueError`. -/
def extractHour (s : PyStr) : Option Int :=
  match s.splitOn 'T' with
  | _ :: part1 :: _ =>
      match part1.splitOn ':' with
      | h :: _ => pyInt h
      | [] => none
  | _ => none

/-- `flight.get("itineraries", [{}])[0].get("segments", [])`: `none` is the
caught `IndexError` of an explicitly empty itinerary list. -/
def firstItinerarySegments (f : FlightOffer) : Option (List Segment) :=
  match f.itineraries with
  | none => some []
  | some [] => none
  | some (itin :: _) => some itin.segments

/-- One departure-window check of `_matches_departure_preferences`. -/
def hourWindowMatch (prefLower : PyStr) (hour : Int) : Bool :=
  (hasSub (strL "morning") prefLower && decide (5 ≤ hour) && decide (hour < 12)) ||
  (hasSub (strL "afternoon") prefLower && decide (12 ≤ hour) && decide (hour < 17)) ||
  (hasSub (strL "evening") prefLower && decide (17 ≤ hour) && decide (hour < 23))

/-- `AmadeusClient._matches_departure_preferences`. -/
def matchesDeparturePreferences (f : FlightOffer) (timePreferences : List PyStr) : Bool :=
  match firstItinerarySegments f with
  | none => true
  | some [] => true
  | some (seg :: _) =>
      if seg.departureAt.isEmpty then true
      else
        match extractHour seg.departureAt with
        | none => true
        | some hour => timePreferences.any (fun p => hourWindowMatch (pyLower p) hour)

/-- `AmadeusClient._is_red_eye`. -/
def isRedEye (f : FlightOffer) : Bool :=
  match firstItinerarySegments f with
  | none => false
  | some [] => false
  | some (seg :: _) =>
      if seg.departureAt.isEmpty then false
      else
        match extractHour seg.departureAt with
        | none => false
        | some hour => decide (hour ≥ 22) || decide (hour < 6)

/-- All segments of an offer (`f.get("itineraries", [])` flattened). -/
def offerSegments (f : FlightOffer) : List Segment :=
  (match f.itineraries with
   | none => []
   | some its => its).flatMap (fun it => it.segments)

/-- `AmadeusClient._filter_flights_by_preferences`. -/
def filterFlightsByPreferences (flights : List FlightOffer) (up : UserPrefs) :
    List FlightOffer :=
  let filtered := flights
  let filtered :=
    if !up.avoidedAirlines.isEmpty then
      filtered.filter (fun f =>
        !(offerSegments f).any (fun seg => up.avoidedAirlines.contains seg.carrierCode))
    else filtered
  let filtered :=
    if !up.preferredAirlines.isEmpty then
      filtered.filter (fun f =>
        (offerSegments f).any (fun seg => up.preferredAirlines.contains seg.carrierCode))
    else filtered
  let filtered :=
    match up.maxStops with
    | some ms =>
        filtered.filter (fun f =>
          (match f.itineraries with
           | none => []
           | some its => its).all (fun it => decide ((it.segments.length : Int) - 1 ≤ ms)))
    | none => filtered
  let filtered :=
    if !up.departureTimePreferences.isEmpty then
      filtered.filter (fun f => matchesDeparturePreferences f up.departureTimePreferences)
    else filtered
  if up.avoidRedEye then filtered.filter (fun f => !isRedEye f) else filtered

/-! ### Auxiliary definitions for the verification -/

/-- `"Red-eye: Prefer to avoid"`, the one canonical label that is not a
fixed point of the canonicalizer. -/
def redEyePreferLabel : PyStr := strL "Red-eye: Prefer to avoid"

/-- Every canonical label the canonicalizer can return (besides passthrough). -/
def canonLabels : List PyStr :=
  [strL "Cabin class: Premium Economy", strL "Cabin class: Business",
   strL "Cabin class: First", strL "Cabin class: Economy",
   strL "Trip type: One-way", strL "Trip type: Round trip",
   strL "Stops: Direct only", strL "Stops: Avoid layovers", strL "Stops: Layovers OK",
   strL "Departure time: Avoid morning", strL "Departure time: Morning",
   strL "Departure time: Avoid afternoon", strL "Departure time: Afternoon",
   strL "Departure time: Avoid evening", strL "Departure time: Evening",
   strL "Red-eye: Avoid", redEyePreferLabel,
   strL "Seat: Window", strL "Seat: Aisle", strL "Seat: Exit row", strL "Seat: Avoid middle",
   strL "Baggage: Carry-on only", strL "Baggage: Checked bag", strL "Baggage: Extra baggage",
   strL "Travel: Solo", strL "Travel: With family", strL "Travel: With partner"]

/-- The substring needles guarding unconditional canonicalizer branches. -/
def canonPlainNeedles : List PyStr :=
  [strL "one-way", strL "one way", strL "round trip", strL "round-trip", strL "return",
   strL "nonstop", strL "non-stop", strL "direct",
   strL "morning", strL "afternoon", strL "evening",
   strL "red-eye", strL "red eye",
   strL "window", strL "aisle", strL "exit row",
   strL "carry-on", strL "cabin baggage", strL "checked", strL "extra baggage",
   strL "traveling alone", strL "travelling alone", strL "solo",
   strL "with family", strL "kids", strL "children", strL "with partner", strL "spouse"]

/-- The guard of the cabin-class branch. -/
def canonCabinGuard (l : PyStr) : Bool :=
  (hasSub (strL "premium economy") l ||
   (hasSub (strL "premium") l && hasSub (strL "economy") l) ||
   hasSub (strL "business") l || hasSub (strL "first") l || hasSub (strL "economy") l) &&
  (hasSub (strL "class") l || hasSub (strL "cabin") l || hasSub (strL "flights") l)

/-- The guard of the returning stops branches. -/
def canonStopsGuard (l : PyStr) : Bool :=
  (hasSub (strL "layover") l || hasSub (strL "stopover") l || hasSub (strL "stops") l) &&
  (kwAny stopsNegKws l || kwAny stopsOkKws l)

/-- The guard of the avoid-middle seat branch. -/
def canonMiddleGuard (l : PyStr) : Bool :=
  (hasSub (strL "middle") l || hasSub (strL "center") l) && kwAny seatNegKws l

/-- Some canonicalizer branch fires on this lowered text. -/
def canonGuard (l : PyStr) : Bool :=
  canonCabinGuard l || kwAny canonPlainNeedles l || canonStopsGuard l || canonMiddleGuard l

/-- An offer whose first itinerary has no segments, or whose first segment
has an absent or unparsable departure timestamp. -/
def badDeparture (f : FlightOffer) : Bool :=
  match firstItinerarySegments f with
  | none => true
  | some [] => true
  | some (seg :: _) => seg.departureAt.isEmpty || (extractHour seg.departureAt).isNone

/-! ### Concrete inputs used by counterexamples and witnesses -/

/-- A DB row storing the canonical solo-traveler preference. -/
def soloDbRow : DbRow :=
  ⟨strL "id-solo", some (strL "passenger"), some (strL "traveling alone"),
   some (strL "Travel: Solo")⟩

/-- Tool arguments with an explicit `adults=3`. -/
def c1args : ToolArgs := { adults := some 3 }

/-- The two fuzzy cabin memories of the C3 counterexample. -/
def c3memories : List PyStr := [strL "Cabin class: Business", strL "Cabin class: Economy"]

/-- A DB row storing the canonical economy cabin preference. -/
def econDbRow : DbRow :=
  ⟨strL "id-econ", some (strL "cabin_class"), some (strL "economy class"),
   some (strL "Cabin class: Economy")⟩

/-- Offer 1 of the ranking scenario: price 500, duration 300 minutes. -/
def c4o1 : FlightOffer :=
  { offerId := strL "1", priceTotal := some (natFrac 500),
    itineraries := some [{ duration := some (strL "PT5H") }] }

/-- Offer 2 of the ranking scenario: price 300, duration 600 minutes. -/
def c4o2 : FlightOffer :=
  { offerId := strL "2", priceTotal := some (natFrac 300),
    itineraries := some [{ duration := some (strL "PT10H") }] }

/-- Offer 3 of the ranking scenario: price 400, duration 450 minutes. -/
def c4o3 : FlightOffer :=
  { offerId := strL "3", priceTotal := some (natFrac 400),
    itineraries := some [{ duration := some (strL "PT7H30M") }] }

/-- The three-offer list of the ranking scenario. -/
def c4offers : List FlightOffer := [c4o1, c4o2, c4o3]

/-- The tags assigned to offer `i` of the ranking scenario. -/
def c4tags (i : Nat) : List PyStr :=
  ((((tagFlightOffers c4offers).toOption.getD []).getD i (c4o1, [])).2)

/-- An offer with no price field. -/
def c6noPriceOffer : FlightOffer :=
  { offerId := strL "bad", itineraries := some [{ duration := some (strL "PT1H") }] }

/-- An offer whose itinerary has no duration field. -/
def c6noDurationOffer : FlightOffer :=
  { offerId := strL "bad2", priceTotal := some (natFrac 100), itineraries := some [{ }] }

/-- The contradiction-resolution utterance. -/
def c8message : PyStr := strL "I hate morning flights but I love morning flights"

/-- A summary whose only passenger preference is the canonical with-partner
label. -/
def c9partnerPrefs : Dict := [(strL "passenger", [strL "Travel: With partner"])]

/-- A summary whose only passenger preference is the canonical solo label. -/
def c9soloPrefs : Dict := [(strL "passenger", [strL "Travel: Solo"])]

/-- A flight whose first segment's departure timestamp is unparsable. -/
def c10flight : FlightOffer :=
  { offerId := strL "w", priceTotal := some (natFrac 100),
    itineraries := some [{ duration := some (strL "PT2H"),
                           segments := [{ departureAt := strL "garbage",
                                          carrierCode := strL "DL" }] }] }

/-- Two consecutive writes of the same exclusive category for one user. -/
def c5writes : List WriteOp :=
  [⟨strL "w1", strL "t1", strL "u1", some (strL "cabin_class"),
    strL "business class", some (strL "Cabin class: Business")⟩,
   ⟨strL "w2", strL "t2", strL "u1", some (strL "cabin_class"),
    strL "economy class", some (strL "Cabin class: Economy")⟩]

/-! ## Lemmas -/

theorem isPre_iff {n h : PyStr} : isPre n h = true ↔ n <+: h := by
  induction n generalizing h with
  | nil => simp [isPre]
  | cons a n ih =>
    cases h with
    | nil => simp [isPre]
    | cons b hs => simp [isPre, ih, List.cons_prefix_cons, Bool.and_eq_true, beq_iff_eq]

theorem hasSub_iff {n h : PyStr} : hasSub n h = true ↔ n <:+: h := by
  induction h with
  | nil =>
    constructor
    · intro hp
      exact (isPre_iff.mp hp).isInfix
    · rintro ⟨s, t, he⟩
      have : n = [] := by
        have := congrArg List.length he
        simp at this
        simp [this.2.1]
      simp [this, hasSub, isPre]
  | cons b hs ih =>
    rw [hasSub, Bool.or_eq_true, isPre_iff, ih, List.infix_cons_iff]

theorem hasSub_true_mono {p l l' : PyStr} (hinf : l' <:+: l)
    (hp : hasSub p l' = true) : hasSub p l = true :=
  hasSub_iff.mpr ((hasSub_iff.mp hp).trans hinf)

theorem hasSub_false_mono {p l l' : PyStr} (hinf : l' <:+: l)
    (hp : hasSub p l = false) : hasSub p l' = false := by
  cases hq : hasSub p l' with
  | false => rfl
  | true => rw [hasSub_true_mono hinf hq] at hp; simp at hp

theorem kwAny_false_mono {kws : List PyStr} {l l' : PyStr} (hinf : l' <:+: l)
    (hk : kwAny kws l = false) : kwAny kws l' = false := by
  simp only [kwAny, List.any_eq_false, Bool.not_eq_true] at hk ⊢
  exact fun k hkm => hasSub_false_mono hinf (hk k hkm)

theorem dropWhile_dropWhile (p : Char → Bool) (l : PyStr) :
    (l.dropWhile p).dropWhile p = l.dropWhile p := by
  induction l with
  | nil => rfl
  | cons a l ih =>
    by_cases h : p a = true
    · simp [List.dropWhile_cons, h, ih]
    · simp at h
      simp [List.dropWhile_cons, h]

theorem dropWhile_head_false {p : Char → Bool} {l : PyStr} {x : Char} {xs : PyStr}
    (h : l.dropWhile p = x :: xs) : p x = false := by
  induction l with
  | nil => simp at h
  | cons a l ih =>
    by_cases ha : p a = true
    · rw [List.dropWhile_cons, if_pos ha] at h
      exact ih h
    · simp at ha
      rw [List.dropWhile_cons, if_neg (by simp [ha])] at h
      cases h
      exact ha

theorem reverse_dropWhile_reverse_isPre (p : Char → Bool) (a : PyStr) :
    (a.reverse.dropWhile p).reverse <+: a := by
  have h := List.reverse_prefix.mpr
    (show List.dropWhile p a.reverse <:+ a.reverse from List.dropWhile_suffix p)
  simpa using h

theorem pyStrip_isInfix (s : PyStr) : pyStrip s <:+: s := by
  have h1 : List.dropWhile isPySpace s <:+ s := List.dropWhile_suffix isPySpace
  have h2 := reverse_dropWhile_reverse_isPre isPySpace (s.dropWhile isPySpace)
  exact h2.isInfix.trans h1.isInfix

theorem pyStrip_stripped (s : PyStr) :
    (pyStrip s).dropWhile isPySpace = pyStrip s := by
  unfold pyStrip
  rcases hb : ((s.dropWhile isPySpace).reverse.dropWhile isPySpace).reverse with _ | ⟨x, b⟩
  · rfl
  · have hpre : x :: b <+: s.dropWhile isPySpace := by
      rw [← hb]
      exact reverse_dropWhile_reverse_isPre isPySpace (s.dropWhile isPySpace)
    rcases hpre with ⟨t, ht⟩
    have hx : isPySpace x = false := by
      refine @dropWhile_head_false isPySpace s x (b ++ t) ?_
      rw [← ht]
      simp
    rw [List.dropWhile_cons, if_neg (by simp [hx])]

theorem pyStrip_idem (s : PyStr) : pyStrip (pyStrip s) = pyStrip s := by
  conv_lhs => rw [pyStrip, pyStrip_stripped]
  rw [show (pyStrip s).reverse = (s.dropWhile isPySpace).reverse.dropWhile isPySpace by
    rw [pyStrip]; simp]
  rw [dropWhile_dropWhile]
  rw [pyStrip]

theorem stripLead_isSuffix (t : PyStr) : stripLead t <:+ t := List.drop_suffix _ _

theorem pyLower_infix_mono {s t : PyStr} (h : s <:+: t) : pyLower s <:+: pyLower t :=
  List.IsInfix.map Char.toLower h

theorem bool_andor_left {a b c : Bool} (h : (a && (b || c)) = false) : (a && b) = false := by
  revert h; revert a b c; decide

theorem bool_andor_right {a b c : Bool} (h : (a && (b || c)) = false) : (a && c) = false := by
  revert h; revert a b c; decide

theorem canonGuard_false_assemble {lower : PyStr}
    (hc : canonCabinGuard lower = false)
    (r1 : (hasSub (strL "one-way") lower || hasSub (strL "one way") lower) = false)
    (r2 : (hasSub (strL "round trip") lower || hasSub (strL "round-trip") lower ||
      hasSub (strL "return") lower) = false)
    (r3 : (hasSub (strL "nonstop") lower || hasSub (strL "non-stop") lower ||
      hasSub (strL "direct") lower) = false)
    (r4 : ((hasSub (strL "layover") lower || hasSub (strL "stopover") lower ||
      hasSub (strL "stops") lower) && kwAny stopsNegKws lower) = false)
    (r5 : ((hasSub (strL "layover") lower || hasSub (strL "stopover") lower ||
      hasSub (strL "stops") lower) && kwAny stopsOkKws lower) = false)
    (r6 : hasSub (strL "morning") lower = false)
    (r7 : hasSub (strL "afternoon") lower = false)
    (r8 : hasSub (strL "evening") lower = false)
    (r9 : (hasSub (strL "red-eye") lower || hasSub (strL "red eye") lower) = false)
    (r10 : hasSub (strL "window") lower = false)
    (r11 : hasSub (strL "aisle") lower = false)
    (r12 : hasSub (strL "exit row") lower = false)
    (r13 : ((hasSub (strL "middle") lower || hasSub (strL "center") lower) &&
      kwAny seatNegKws lower) = false)
    (r14 : (hasSub (strL "carry-on") lower || hasSub (strL "cabin baggage") lower) = false)
    (r15 : hasSub (strL "checked") lower = false)
    (r16 : hasSub (strL "extra baggage") lower = false)
    (r17 : (hasSub (strL "traveling alone") lower || hasSub (strL "travelling alone") lower ||
      hasSub (strL "solo") lower) = false)
    (r18 : (hasSub (strL "with family") lower || hasSub (strL "kids") lower ||
      hasSub (strL "children") lower) = false)
    (r19 : (hasSub (strL "with partner") lower || hasSub (strL "spouse") lower) = false) :
    canonGuard lower = false := by
  simp only [Bool.or_eq_false_iff] at r1 r2 r3 r9 r14 r17 r18 r19
  have hstops : canonStopsGuard lower = false := by
    unfold canonStopsGuard
    cases hgrp : (hasSub (strL "layover") lower || hasSub (strL "stopover") lower ||
        hasSub (strL "stops") lower) with
    | false => simp
    | true =>
      rw [hgrp] at r4 r5
      simp at r4 r5
      simp [r4, r5]
  have hmid : canonMiddleGuard lower = false := r13
  have hplain : kwAny canonPlainNeedles lower = false := by
    simp only [kwAny, canonPlainNeedles, List.any_cons, List.any_nil, Bool.or_eq_false_iff]
    simp [r1.1, r1.2, r2.1.1, r2.1.2, r2.2, r3.1.1, r3.1.2, r3.2, r6, r7, r8,
      r9.1, r9.2, r10, r11, r12, r14.1, r14.2, r15, r16, r17.1.1, r17.1.2, r17.2,
      r18.1.1, r18.1.2, r18.2, r19.1, r19.2]
  simp [canonGuard, hc, hplain, hstops, hmid]

theorem canon_cases (core : PyStr) :
    canonicalizePreferenceText core ∈ canonLabels ∨
    (canonGuard (pyLower (pyStrip core)) = false ∧
     canonicalizePreferenceText core = pyStrip (stripLead (pyStrip core))) := by
  simp only [canonicalizePreferenceText]
  set lw := pyLower (pyStrip core) with hlw
  rcases hcv : canonCabinValue lw with _ | cabin
  · simp only [hcv]
    simp only [canonicalizeRest]
    unfold canonCabinValue at hcv
    split_ifs at hcv with hc1 hc2 hc3 hc4
    by_cases r1 : (hasSub (strL "one-way") lw || hasSub (strL "one way") lw) = true
    · rw [if_pos r1]; left; decide
    rw [if_neg r1]
    by_cases r2 : (hasSub (strL "round trip") lw || hasSub (strL "round-trip") lw || hasSub (strL "return") lw) = true
    · rw [if_pos r2]; left; decide
    rw [if_neg r2]
    by_cases r3 : (hasSub (strL "nonstop") lw || hasSub (strL "non-stop") lw || hasSub (strL "direct") lw) = true
    · rw [if_pos r3]; left; decide
    rw [if_neg r3]
    by_cases r4 : ((hasSub (strL "layover") lw || hasSub (strL "stopover") lw || hasSub (strL "stops") lw) && kwAny stopsNegKws lw) = true
    · rw [if_pos r4]; left; decide
    rw [if_neg r4]
    by_cases r5 : ((hasSub (strL "layover") lw || hasSub (strL "stopover") lw || hasSub (strL "stops") lw) && kwAny stopsOkKws lw) = true
    · rw [if_pos r5]; left; decide
    rw [if_neg r5]
    by_cases r6 : hasSub (strL "morning") lw = true
    · rw [if_pos r6]; split_ifs <;> (left; decide)
    rw [if_neg r6]
    by_cases r7 : hasSub (strL "afternoon") lw = true
    · rw [if_pos r7]; split_ifs <;> (left; decide)
    rw [if_neg r7]
    by_cases r8 : hasSub (strL "evening") lw = true
    · rw [if_pos r8]; split_ifs <;> (left; decide)
    rw [if_neg r8]
    by_cases r9 : (hasSub (strL "red-eye") lw || hasSub (strL "red eye") lw) = true
    · rw [if_pos r9]; split_ifs <;> (left; decide)
    rw [if_neg r9]
    by_cases r10 : hasSub (strL "window") lw = true
    · rw [if_pos r10]; left; decide
    rw [if_neg r10]
    by_cases r11 : hasSub (strL "aisle") lw = true
    · rw [if_pos r11]; left; decide
    rw [if_neg r11]
    by_cases r12 : hasSub (strL "exit row") lw = true
    · rw [if_pos r12]; left; decide
    rw [if_neg r12]
    by_cases r13 : ((hasSub (strL "middle") lw || hasSub (strL "center") lw) && kwAny seatNegKws lw) = true
    · rw [if_pos r13]; left; decide
    rw [if_neg r13]
    by_cases r14 : (hasSub (strL "carry-on") lw || hasSub (strL "cabin baggage") lw) = true
    · rw [if_pos r14]; left; decide
    rw [if_neg r14]
    by_cases r15 : hasSub (strL "checked") lw = true
    · rw [if_pos r15]; left; decide
    rw [if_neg r15]
    by_cases r16 : hasSub (strL "extra baggage") lw = true
    · rw [if_pos r16]; left; decide
    rw [if_neg r16]
    by_cases r17 : (hasSub (strL "traveling alone") lw || hasSub (strL "travelling alone") lw || hasSub (strL "solo") lw) = true
    · rw [if_pos r17]; left; decide
    rw [if_neg r17]
    by_cases r18 : (hasSub (strL "with family") lw || hasSub (strL "kids") lw || hasSub (strL "children") lw) = true
    · rw [if_pos r18]; left; decide
    rw [if_neg r18]
    by_cases r19 : (hasSub (strL "with partner") lw || hasSub (strL "spouse") lw) = true
    · rw [if_pos r19]; left; decide
    rw [if_neg r19]
    right
    simp only [Bool.not_eq_true] at r1
    simp only [Bool.not_eq_true] at r2
    simp only [Bool.not_eq_true] at r3
    simp only [Bool.not_eq_true] at r4
    simp only [Bool.not_eq_true] at r5
    simp only [Bool.not_eq_true] at r6
    simp only [Bool.not_eq_true] at r7
    simp only [Bool.not_eq_true] at r8
    simp only [Bool.not_eq_true] at r9
    simp only [Bool.not_eq_true] at r10
    simp only [Bool.not_eq_true] at r11
    simp only [Bool.not_eq_true] at r12
    simp only [Bool.not_eq_true] at r13
    simp only [Bool.not_eq_true] at r14
    simp only [Bool.not_eq_true] at r15
    simp only [Bool.not_eq_true] at r16
    simp only [Bool.not_eq_true] at r17
    simp only [Bool.not_eq_true] at r18
    simp only [Bool.not_eq_true] at r19
    refine ⟨canonGuard_false_assemble ?_ r1 r2 r3 r4 r5 r6 r7 r8 r9 r10 r11 r12 r13 r14 r15 r16 r17 r18 r19, rfl⟩
    simp only [Bool.not_eq_true] at hc1 hc2 hc3 hc4
    simp only [Bool.or_eq_false_iff] at hc1
    simp [canonCabinGuard, hc1.1, hc1.2, hc2, hc3, hc4]
  · simp only [hcv]
    by_cases hclass : (hasSub (strL "class") lw || hasSub (strL "cabin") lw || hasSub (strL "flights") lw) = true
    · rw [if_pos hclass]
      left
      unfold canonCabinValue at hcv
      split_ifs at hcv with hc1 hc2 hc3 hc4 <;>
        first
          | exact Option.noConfusion hcv
          | (injection hcv with hcab; subst hcab; decide)
    · rw [if_neg hclass]
      simp only [canonicalizeRest]
      by_cases r1 : (hasSub (strL "one-way") lw || hasSub (strL "one way") lw) = true
      · rw [if_pos r1]; left; decide
      rw [if_neg r1]
      by_cases r2 : (hasSub (strL "round trip") lw || hasSub (strL "round-trip") lw || hasSub (strL "return") lw) = true
      · rw [if_pos r2]; left; decide
      rw [if_neg r2]
      by_cases r3 : (hasSub (strL "nonstop") lw || hasSub (strL "non-stop") lw || hasSub (strL "direct") lw) = true
      · rw [if_pos r3]; left; decide
      rw [if_neg r3]
      by_cases r4 : ((hasSub (strL "layover") lw || hasSub (strL "stopover") lw || hasSub (strL "stops") lw) && kwAny stopsNegKws lw) = true
      · rw [if_pos r4]; left; decide
      rw [if_neg r4]
      by_cases r5 : ((hasSub (strL "layover") lw || hasSub (strL "stopover") lw || hasSub (strL "stops") lw) && kwAny stopsOkKws lw) = true
      · rw [if_pos r5]; left; decide
      rw [if_neg r5]
      by_cases r6 : hasSub (strL "morning") lw = true
      · rw [if_pos r6]; split_ifs <;> (left; decide)
      rw [if_neg r6]
      by_cases r7 : hasSub (strL "afternoon") lw = true
      · rw [if_pos r7]; split_ifs <;> (left; decide)
      rw [if_neg r7]
      by_cases r8 : hasSub (strL "evening") lw = true
      · rw [if_pos r8]; split_ifs <;> (left; decide)
      rw [if_neg r8]
      by_cases r9 : (hasSub (strL "red-eye") lw || hasSub (strL "red eye") lw) = true
      · rw [if_pos r9]; split_ifs <;> (left; decide)
      rw [if_neg r9]
      by_cases r10 : hasSub (strL "window") lw = true
      · rw [if_pos r10]; left; decide
      rw [if_neg r10]
      by_cases r11 : hasSub (strL "aisle") lw = true
      · rw [if_pos r11]; left; decide
      rw [if_neg r11]
      by_cases r12 : hasSub (strL "exit row") lw = true
      · rw [if_pos r12]; left; decide
      rw [if_neg r12]
      by_cases r13 : ((hasSub (strL "middle") lw || hasSub (strL "center") lw) && kwAny seatNegKws lw) = true
      · rw [if_pos r13]; left; decide
      rw [if_neg r13]
      by_cases r14 : (hasSub (strL "carry-on") lw || hasSub (strL "cabin baggage") lw) = true
      · rw [if_pos r14]; left; decide
      rw [if_neg r14]
      by_cases r15 : hasSub (strL "checked") lw = true
      · rw [if_pos r15]; left; decide
      rw [if_neg r15]
      by_cases r16 : hasSub (strL "extra baggage") lw = true
      · rw [if_pos r16]; left; decide
      rw [if_neg r16]
      by_cases r17 : (hasSub (strL "traveling alone") lw || hasSub (strL "travelling alone") lw || hasSub (strL "solo") lw) = true
      · rw [if_pos r17]; left; decide
      rw [if_neg r17]
      by_cases r18 : (hasSub (strL "with family") lw || hasSub (strL "kids") lw || hasSub (strL "children") lw) = true
      · rw [if_pos r18]; left; decide
      rw [if_neg r18]
      by_cases r19 : (hasSub (strL "with partner") lw || hasSub (strL "spouse") lw) = true
      · rw [if_pos r19]; left; decide
      rw [if_neg r19]
      right
      simp only [Bool.not_eq_true] at r1
      simp only [Bool.not_eq_true] at r2
      simp only [Bool.not_eq_true] at r3
      simp only [Bool.not_eq_true] at r4
      simp only [Bool.not_eq_true] at r5
      simp only [Bool.not_eq_true] at r6
      simp only [Bool.not_eq_true] at r7
      simp only [Bool.not_eq_true] at r8
      simp only [Bool.not_eq_true] at r9
      simp only [Bool.not_eq_true] at r10
      simp only [Bool.not_eq_true] at r11
      simp only [Bool.not_eq_true] at r12
      simp only [Bool.not_eq_true] at r13
      simp only [Bool.not_eq_true] at r14
      simp only [Bool.not_eq_true] at r15
      simp only [Bool.not_eq_true] at r16
      simp only [Bool.not_eq_true] at r17
      simp only [Bool.not_eq_true] at r18
      simp only [Bool.not_eq_true] at r19
      refine ⟨canonGuard_false_assemble ?_ r1 r2 r3 r4 r5 r6 r7 r8 r9 r10 r11 r12 r13 r14 r15 r16 r17 r18 r19, rfl⟩
      simp only [Bool.not_eq_true] at hclass
      simp [canonCabinGuard, hclass]

theorem canonCabinValue_isSome_guard {l : PyStr} {c : PyStr}
    (h : canonCabinValue l = some c) :
    (hasSub (strL "premium economy") l ||
     (hasSub (strL "premium") l && hasSub (strL "economy") l) ||
     hasSub (strL "business") l || hasSub (strL "first") l ||
     hasSub (strL "economy") l) = true := by
  unfold canonCabinValue at h
  split_ifs at h with h1 h2 h3 h4 <;> simp_all

theorem bool_and_false_of_true {a c : Bool} (h : (a && c) = false) (ha : a = true) :
    c = false := by
  revert h ha; revert a c; decide

theorem canon_eq_passthrough_of_guard_false {core : PyStr}
    (hg : canonGuard (pyLower (pyStrip core)) = false) :
    canonicalizePreferenceText core = pyStrip (stripLead (pyStrip core)) := by
  simp only [canonicalizePreferenceText]
  set lw := pyLower (pyStrip core) with hlw
  simp only [canonGuard, Bool.or_eq_false_iff] at hg
  obtain ⟨⟨⟨hcab, hplain⟩, hstops⟩, hmid⟩ := hg
  simp only [kwAny, canonPlainNeedles, List.any_cons, List.any_nil,
    Bool.or_eq_false_iff] at hplain
  obtain ⟨n1, n2, n3, n4, n5, n6, n7, n8, n9, n10, n11, n12, n13, n14, n15, n16, n17, n18, n19, n20, n21, n22, n23, n24, n25, n26, n27, n28, -⟩ := hplain
  simp only [canonStopsGuard] at hstops
  have e4 := bool_andor_left hstops
  have e5 := bool_andor_right hstops
  simp only [canonMiddleGuard] at hmid
  rcases hcv : canonCabinValue lw with _ | cabin
  · simp only [hcv]
    simp only [canonicalizeRest]
    rw [if_neg (show ¬((hasSub (strL "one-way") lw || hasSub (strL "one way") lw) = true) by simp [n1, n2])]
    rw [if_neg (show ¬((hasSub (strL "round trip") lw || hasSub (strL "round-trip") lw || hasSub (strL "return") lw) = true) by simp [n3, n4, n5])]
    rw [if_neg (show ¬((hasSub (strL "nonstop") lw || hasSub (strL "non-stop") lw || hasSub (strL "direct") lw) = true) by simp [n6, n7, n8])]
    rw [if_neg (show ¬(((hasSub (strL "layover") lw || hasSub (strL "stopover") lw || hasSub (strL "stops") lw) && kwAny stopsNegKws lw) = true) by simp [e4])]
    rw [if_neg (show ¬(((hasSub (strL "layover") lw || hasSub (strL "stopover") lw || hasSub (strL "stops") lw) && kwAny stopsOkKws lw) = true) by simp [e5])]
    rw [if_neg (show ¬(hasSub (strL "morning") lw = true) by simp [n9])]
    rw [if_neg (show ¬(hasSub (strL "afternoon") lw = true) by simp [n10])]
    rw [if_neg (show ¬(hasSub (strL "evening") lw = true) by simp [n11])]
    rw [if_neg (show ¬((hasSub (strL "red-eye") lw || hasSub (strL "red eye") lw) = true) by simp [n12, n13])]
    rw [if_neg (show ¬(hasSub (strL "window") lw = true) by simp [n14])]
    rw [if_neg (show ¬(hasSub (strL "aisle") lw = true) by simp [n15])]
    rw [if_neg (show ¬(hasSub (strL "exit row") lw = true) by simp [n16])]
    rw [if_neg (show ¬(((hasSub (strL "middle") lw || hasSub (strL "center") lw) && kwAny seatNegKws lw) = true) by simp [hmid])]
    rw [if_neg (show ¬((hasSub (strL "carry-on") lw || hasSub (strL "cabin baggage") lw) = true) by simp [n17, n18])]
    rw [if_neg (show ¬(hasSub (strL "checked") lw = true) by simp [n19])]
    rw [if_neg (show ¬(hasSub (strL "extra baggage") lw = true) by simp [n20])]
    rw [if_neg (show ¬((hasSub (strL "traveling alone") lw || hasSub (strL "travelling alone") lw || hasSub (strL "solo") lw) = true) by simp [n21, n22, n23])]
    rw [if_neg (show ¬((hasSub (strL "with family") lw || hasSub (strL "kids") lw || hasSub (strL "children") lw) = true) by simp [n24, n25, n26])]
    rw [if_neg (show ¬((hasSub (strL "with partner") lw || hasSub (strL "spouse") lw) = true) by simp [n27, n28])]
  · simp only [hcv]
    have hA := canonCabinValue_isSome_guard hcv
    simp only [canonCabinGuard] at hcab
    have hclass := bool_and_false_of_true hcab hA
    rw [if_neg (show ¬((hasSub (strL "class") lw || hasSub (strL "cabin") lw || hasSub (strL "flights") lw) = true) by simp [hclass])]
    simp only [canonicalizeRest]
    rw [if_neg (show ¬((hasSub (strL "one-way") lw || hasSub (strL "one way") lw) = true) by simp [n1, n2])]
    rw [if_neg (show ¬((hasSub (strL "round trip") lw || hasSub (strL "round-trip") lw || hasSub (strL "return") lw) = true) by simp [n3, n4, n5])]
    rw [if_neg (show ¬((hasSub (strL "nonstop") lw || hasSub (strL "non-stop") lw || hasSub (strL "direct") lw) = true) by simp [n6, n7, n8])]
    rw [if_neg (show ¬(((hasSub (strL "layover") lw || hasSub (strL "stopover") lw || hasSub (strL "stops") lw) && kwAny stopsNegKws lw) = true) by simp [e4])]
    rw [if_neg (show ¬(((hasSub (strL "layover") lw || hasSub (strL "stopover") lw || hasSub (strL "stops") lw) && kwAny stopsOkKws lw) = true) by simp [e5])]
    rw [if_neg (show ¬(hasSub (strL "morning") lw = true) by simp [n9])]
    rw [if_neg (show ¬(hasSub (strL "afternoon") lw = true) by simp [n10])]
    rw [if_neg (show ¬(hasSub (strL "evening") lw = true) by simp [n11])]
    rw [if_neg (show ¬((hasSub (strL "red-eye") lw || hasSub (strL "red eye") lw) = true) by simp [n12, n13])]
    rw [if_neg (show ¬(hasSub (strL "window") lw = true) by simp [n14])]
    rw [if_neg (show ¬(hasSub (strL "aisle") lw = true) by simp [n15])]
    rw [if_neg (show ¬(hasSub (strL "exit row") lw = true) by simp [n16])]
    rw [if_neg (show ¬(((hasSub (strL "middle") lw || hasSub (strL "center") lw) && kwAny seatNegKws lw) = true) by simp [hmid])]
    rw [if_neg (show ¬((hasSub (strL "carry-on") lw || hasSub (strL "cabin baggage") lw) = true) by simp [n17, n18])]
    rw [if_neg (show ¬(hasSub (strL "checked") lw = true) by simp [n19])]
    rw [if_neg (show ¬(hasSub (strL "extra baggage") lw = true) by simp [n20])]
    rw [if_neg (show ¬((hasSub (strL "traveling alone") lw || hasSub (strL "travelling alone") lw || hasSub (strL "solo") lw) = true) by simp [n21, n22, n23])]
    rw [if_neg (show ¬((hasSub (strL "with family") lw || hasSub (strL "kids") lw || hasSub (strL "children") lw) = true) by simp [n24, n25, n26])]
    rw [if_neg (show ¬((hasSub (strL "with partner") lw || hasSub (strL "spouse") lw) = true) by simp [n27, n28])]


theorem kwAny_true_mono {kws : List PyStr} {l l' : PyStr} (hinf : l' <:+: l)
    (hk : kwAny kws l' = true) : kwAny kws l = true := by
  simp only [kwAny, List.any_eq_true] at hk ⊢
  obtain ⟨k, hkm, hks⟩ := hk
  exact ⟨k, hkm, hasSub_true_mono hinf hks⟩

theorem canonGuard_true_mono {l l' : PyStr} (hinf : l' <:+: l)
    (h : canonGuard l' = true) : canonGuard l = true := by
  have m : ∀ p : PyStr, hasSub p l' = true → hasSub p l = true :=
    fun p hp => hasSub_true_mono hinf hp
  simp only [canonGuard, Bool.or_eq_true] at h ⊢
  rcases h with ((hcab | hplain) | hstops) | hmid
  · refine Or.inl (Or.inl (Or.inl ?_))
    simp only [canonCabinGuard, Bool.and_eq_true, Bool.or_eq_true] at hcab ⊢
    obtain ⟨hA, hC⟩ := hcab
    constructor
    · rcases hA with (((h1 | ⟨h2a, h2b⟩) | h3) | h4) | h5
      · exact Or.inl (Or.inl (Or.inl (Or.inl (m _ h1))))
      · exact Or.inl (Or.inl (Or.inl (Or.inr ⟨m _ h2a, m _ h2b⟩)))
      · exact Or.inl (Or.inl (Or.inr (m _ h3)))
      · exact Or.inl (Or.inr (m _ h4))
      · exact Or.inr (m _ h5)
    · rcases hC with (h1 | h2) | h3
      · exact Or.inl (Or.inl (m _ h1))
      · exact Or.inl (Or.inr (m _ h2))
      · exact Or.inr (m _ h3)
  · exact Or.inl (Or.inl (Or.inr (kwAny_true_mono hinf hplain)))
  · refine Or.inl (Or.inr ?_)
    simp only [canonStopsGuard, Bool.and_eq_true, Bool.or_eq_true] at hstops ⊢
    obtain ⟨hG, hK⟩ := hstops
    constructor
    · rcases hG with (h1 | h2) | h3
      · exact Or.inl (Or.inl (m _ h1))
      · exact Or.inl (Or.inr (m _ h2))
      · exact Or.inr (m _ h3)
    · rcases hK with h1 | h2
      · exact Or.inl (kwAny_true_mono hinf h1)
      · exact Or.inr (kwAny_true_mono hinf h2)
  · refine Or.inr ?_
    simp only [canonMiddleGuard, Bool.and_eq_true, Bool.or_eq_true] at hmid ⊢
    obtain ⟨hG, hK⟩ := hmid
    refine ⟨?_, kwAny_true_mono hinf hK⟩
    rcases hG with h1 | h2
    · exact Or.inl (m _ h1)
    · exact Or.inr (m _ h2)

theorem canonGuard_false_mono {l l' : PyStr} (hinf : l' <:+: l)
    (hg : canonGuard l = false) : canonGuard l' = false := by
  cases hq : canonGuard l' with
  | false => rfl
  | true => rw [canonGuard_true_mono hinf hq] at hg; simp at hg

theorem canonLabels_fixed :
    canonLabels.all (fun c =>
      (c == redEyePreferLabel) || (canonicalizePreferenceText c == c)) = true := by
  decide

theorem canon_infix_core (x : PyStr) :
    pyStrip (stripLead (pyStrip x)) <:+: pyStrip x :=
  (pyStrip_isInfix (stripLead (pyStrip x))).trans (stripLead_isSuffix (pyStrip x)).isInfix


/-- Claim C2 (amended): the canonicalizer is idempotent on every input whose
canonical form is not `"Red-eye: Prefer to avoid"` and whose canonical form
does not still begin with a strippable leading phrase
(`I prefer/like/love/want/need`). -/
theorem canonicalize_idempotent_amended (x : PyStr)
    (h1 : canonicalizePreferenceText x ≠ redEyePreferLabel)
    (h2 : stripLead (canonicalizePreferenceText x) = canonicalizePreferenceText x) :
    canonicalizePreferenceText (canonicalizePreferenceText x) =
      canonicalizePreferenceText x := by
  rcases canon_cases x with hmem | ⟨hg, hpass⟩
  · have hall := canonLabels_fixed
    rw [List.all_eq_true] at hall
    have hc := hall _ hmem
    rw [Bool.or_eq_true] at hc
    rcases hc with hrep | hfix
    · exact absurd (by simpa using hrep) h1
    · simpa using hfix
  · have hstript : pyStrip (canonicalizePreferenceText x) = canonicalizePreferenceText x := by
      rw [hpass]
      exact pyStrip_idem _
    have hinf : pyLower (pyStrip (canonicalizePreferenceText x)) <:+: pyLower (pyStrip x) := by
      rw [hstript, hpass]
      exact pyLower_infix_mono (canon_infix_core x)
    have hg' : canonGuard (pyLower (pyStrip (canonicalizePreferenceText x))) = false :=
      canonGuard_false_mono hinf hg
    have hp2 := canon_eq_passthrough_of_guard_false hg'
    rw [hp2, hstript, h2, hstript]

/-- Claim C2 counterexample: `"red-eye"` canonicalizes to
`"Red-eye: Prefer to avoid"`, which re-canonicalizes to `"Red-eye: Avoid"`,
so `canonicalize` is not idempotent as claimed. -/
theorem canonicalize_idempotent_counterexample :
    canonicalizePreferenceText (canonicalizePreferenceText (strL "red-eye")) ≠
      canonicalizePreferenceText (strL "red-eye") := by
  decide

/-- Witness for the amended C2 theorem at a concrete input. -/
theorem canonicalize_idempotent_amended_witness :
    canonicalizePreferenceText (canonicalizePreferenceText (strL "I prefer window seats")) =
      canonicalizePreferenceText (strL "I prefer window seats") :=
  canonicalize_idempotent_amended (strL "I prefer window seats") (by decide) (by decide)


theorem resolveContradictions_subset {msgLower : PyStr} {prefs : List PyStr} {x : PyStr}
    (hx : x ∈ resolveContradictions msgLower prefs) : x ∈ prefs := by
  simp only [resolveContradictions] at hx
  split_ifs at hx
  · exact hx
  · exact (List.mem_filter.mp hx).1

theorem mem_avoidBuckets {prefs : List PyStr} {p b : PyStr}
    (hp : p ∈ prefs) (hb : b ∈ bucketNames)
    (hpre : isPre (strL "avoid ") (pyLower p) = true)
    (hsub : hasSub b (pyLower p) = true) : b ∈ avoidBuckets prefs := by
  unfold avoidBuckets
  rw [List.mem_flatMap]
  refine ⟨p, hp, ?_⟩
  show b ∈ (if isPre (strL "avoid ") (pyLower p) = true then
    bucketNames.filter (fun b => hasSub b (pyLower p)) else [])
  rw [if_pos hpre]
  exact List.mem_filter.mpr ⟨hb, hsub⟩

theorem resolve_avoid_wins {ml : PyStr} {prefs : List PyStr} {b : PyStr}
    (hb : b ∈ bucketNames)
    (ha : (strL "Avoid " ++ b ++ strL " flights") ∈ resolveContradictions ml prefs) :
    (b ++ strL " flights") ∉ resolveContradictions ml prefs := by
  intro hp
  have hau : (strL "Avoid " ++ b ++ strL " flights") ∈ prefs :=
    resolveContradictions_subset ha
  have hbab : b ∈ avoidBuckets prefs := by
    refine mem_avoidBuckets hau hb ?_ ?_
    · fin_cases hb <;> decide
    · fin_cases hb <;> decide
  have hne : ¬((avoidBuckets prefs).isEmpty = true) := by
    intro hempty
    rw [List.isEmpty_iff] at hempty
    rw [hempty] at hbab
    simp at hbab
  simp only [resolveContradictions] at hp
  rw [if_neg hne] at hp
  obtain ⟨-, hpred⟩ := List.mem_filter.mp hp
  fin_cases hb
  · rw [if_pos (by decide :
        positiveTimeLabels.contains (pyLower (strL "morning" ++ strL " flights")) = true)] at hpred
    rw [List.all_eq_true] at hpred
    have hcontra := hpred _ hbab
    simp only [show hasSub (strL "morning") (pyLower (strL "morning" ++ strL " flights")) = true
      from by decide] at hcontra
    simp at hcontra
  · rw [if_pos (by decide :
        positiveTimeLabels.contains (pyLower (strL "afternoon" ++ strL " flights")) = true)] at hpred
    rw [List.all_eq_true] at hpred
    have hcontra := hpred _ hbab
    simp only [show hasSub (strL "afternoon") (pyLower (strL "afternoon" ++ strL " flights")) = true
      from by decide] at hcontra
    simp at hcontra
  · rw [if_pos (by decide :
        positiveTimeLabels.contains (pyLower (strL "evening" ++ strL " flights")) = true)] at hpred
    rw [List.all_eq_true] at hpred
    have hcontra := hpred _ hbab
    simp only [show hasSub (strL "evening") (pyLower (strL "evening" ++ strL " flights")) = true
      from by decide] at hcontra
    simp at hcontra


/-- Claim C8: extracting from "I hate morning flights but I love morning
flights" yields exactly the avoidance label "Avoid morning flights" (the
positive "morning flights" label is dropped); in general, whenever an
extracted time-bucket avoidance label is present in the output, the positive
label for the same bucket is absent. -/
theorem extract_contradiction_resolution :
    extractPreferencesFromMessage c8message = [strL "Avoid morning flights"] ∧
    ∀ (msg b : PyStr), b ∈ bucketNames →
      (strL "Avoid " ++ b ++ strL " flights") ∈ extractPreferencesFromMessage msg →
      (b ++ strL " flights") ∉ extractPreferencesFromMessage msg := by
  constructor
  · decide
  · intro msg b hb ha hp
    exact resolve_avoid_wins hb ha hp

/-- Witness for the general part of C8 at the concrete utterance. -/
theorem extract_contradiction_resolution_witness :
    (strL "morning" ++ strL " flights") ∉ extractPreferencesFromMessage c8message :=
  extract_contradiction_resolution.2 c8message (strL "morning") (by decide)
    (by rw [extract_contradiction_resolution.1]; decide)


/-- Claim C10: an offer whose first itinerary has no segments, or whose
first segment's departure timestamp is absent or unparsable, passes the
departure-window filter (for every requested-window list), is classified as
not red-eye, and is kept by the preference post-filter even when red-eye
avoidance is enabled (given no airline/stop constraints). -/
theorem malformed_departure_kept (f : FlightOffer) (tps : List PyStr) (up : UserPrefs)
    (hbad : badDeparture f = true)
    (hav : up.avoidedAirlines = []) (hpr : up.preferredAirlines = [])
    (hms : up.maxStops = none) :
    matchesDeparturePreferences f tps = true ∧ isRedEye f = false ∧
    ∀ flights, f ∈ flights → f ∈ filterFlightsByPreferences flights up := by
  have hkey : ∀ t : List PyStr, matchesDeparturePreferences f t = true ∧ isRedEye f = false := by
    intro t
    unfold badDeparture at hbad
    unfold matchesDeparturePreferences isRedEye
    rcases hfi : firstItinerarySegments f with _ | segs
    · simp only [hfi]
      exact ⟨trivial, trivial⟩
    · rcases segs with _ | ⟨seg, rest⟩
      · simp only [hfi]
        exact ⟨trivial, trivial⟩
      · simp only [hfi] at hbad ⊢
        simp only [Bool.or_eq_true] at hbad
        rcases hbad with hempty | hnone
        · rw [if_pos hempty, if_pos hempty]
          exact ⟨rfl, rfl⟩
        · rw [Option.isNone_iff_eq_none] at hnone
          by_cases hemp : seg.departureAt.isEmpty = true
          · rw [if_pos hemp, if_pos hemp]
            exact ⟨rfl, rfl⟩
          · rw [if_neg hemp, if_neg hemp, hnone]
            exact ⟨rfl, rfl⟩
  refine ⟨(hkey tps).1, (hkey tps).2, ?_⟩
  intro flights hmem
  unfold filterFlightsByPreferences
  rw [hav, hpr, hms]
  simp only [List.isEmpty_nil, Bool.not_true, Bool.false_eq_true, if_false]
  have hm : ∀ t : List PyStr, matchesDeparturePreferences f t = true := fun t => (hkey t).1
  have hr : (!isRedEye f) = true := by rw [(hkey []).2]; rfl
  split_ifs <;> simp [List.mem_filter, hmem, hm, hr]

/-- Witness for C10: a flight with an unparsable departure timestamp. -/
theorem malformed_departure_kept_witness :
    matchesDeparturePreferences c10flight [strL "morning flights"] = true ∧
    isRedEye c10flight = false ∧
    ∀ flights, c10flight ∈ flights →
      c10flight ∈ filterFlightsByPreferences flights
        { departureTimePreferences := [strL "morning flights"], avoidRedEye := true } :=
  malformed_departure_kept c10flight [strL "morning flights"]
    { departureTimePreferences := [strL "morning flights"], avoidRedEye := true }
    (by decide) rfl rfl rfl


/-- Claim C4: ranking the offer list [{price 500, 300 min}, {price 300,
600 min}, {price 400, 450 min}] tags offer 2 `cheapest` and offer 1
`fastest` (no ties here), and `best` is either on offer 3 or omitted
entirely (here the best-scoring offer is offer 2, already `cheapest`, so
`best` is skipped). -/
theorem ranking_determinism_scenario :
    (c4tags 1).contains (strL "cheapest") = true ∧
    (c4tags 0).contains (strL "fastest") = true ∧
    ((c4tags 2).contains (strL "best") = true ∨
     (c4tags 0 ++ c4tags 1 ++ c4tags 2).contains (strL "best") = false) := by
  refine ⟨by decide, by decide, Or.inr (by decide)⟩

/-- Claim C6 counterexample: an offer with no price field makes
`tag_flight_offers` raise `KeyError` instead of being excluded from the
comparisons. -/
theorem tag_missing_price_raises :
    tagFlightOffers [c6noPriceOffer] = Except.error (strL "KeyError: price") := rfl

theorem collectPrices_error {offers : List FlightOffer} {o : FlightOffer}
    (ho : o ∈ offers) (hp : o.priceTotal = none) :
    collectPrices offers = Except.error (strL "KeyError: price") := by
  induction offers with
  | nil => simp at ho
  | cons a rest ih =>
    rcases List.mem_cons.mp ho with rfl | hmem
    · simp only [collectPrices, hp]
    · simp only [collectPrices]
      rcases hpa : a.priceTotal with _ | p
      · rfl
      · rw [ih hmem]

theorem offerMinutes_fold_error {its : List Itinerary} {e : PyStr} :
    its.foldl (fun acc itin =>
        match acc with
        | Except.error e => Except.error e
        | Except.ok n =>
            match itin.duration with
            | none => Except.error (strL "KeyError: duration")
            | some d => Except.ok (n + (match ptMinutes d with
                | some m => m
                | none => 0)))
      (Except.error e) = Except.error e := by
  induction its with
  | nil => rfl
  | cons itin rest ih => simpa using ih

theorem durations_fold_error {its : List Itinerary} (n : Nat)
    (h : ∃ itin ∈ its, itin.duration = none) :
    its.foldl (fun acc itin =>
        match acc with
        | Except.error e => Except.error e
        | Except.ok n =>
            match itin.duration with
            | none => Except.error (strL "KeyError: duration")
            | some d => Except.ok (n + (match ptMinutes d with
                | some m => m
                | none => 0)))
      (Except.ok n) = Except.error (strL "KeyError: duration") := by
  induction its generalizing n with
  | nil =>
    obtain ⟨itin, h1, -⟩ := h
    simp at h1
  | cons a rest ih =>
    obtain ⟨itin, hmem, hdur⟩ := h
    rcases List.mem_cons.mp hmem with rfl | hmem2
    · simp only [List.foldl_cons, hdur]
      exact offerMinutes_fold_error
    · rcases ha : a.duration with _ | d
      · simp only [List.foldl_cons, ha]
        exact offerMinutes_fold_error
      · simp only [List.foldl_cons, ha]
        exact ih _ ⟨itin, hmem2, hdur⟩

theorem offerMinutes_error {o : FlightOffer}
    (h : o.itineraries = none ∨
      ∃ its, o.itineraries = some its ∧ ∃ itin ∈ its, itin.duration = none) :
    ∃ e, offerMinutes o = Except.error e := by
  rcases h with hnone | ⟨its, hits, hex⟩
  · exact ⟨strL "KeyError: itineraries", by simp only [offerMinutes, hnone]⟩
  · refine ⟨strL "KeyError: duration", ?_⟩
    simp only [offerMinutes, hits]
    exact durations_fold_error 0 hex

theorem collectDurations_error {offers : List FlightOffer} {o : FlightOffer} {e : PyStr}
    (ho : o ∈ offers) (he : offerMinutes o = Except.error e) :
    ∃ e2, collectDurations offers = Except.error e2 := by
  induction offers with
  | nil => simp at ho
  | cons a rest ih =>
    rcases List.mem_cons.mp ho with rfl | hmem
    · exact ⟨e, by simp only [collectDurations, he]⟩
    · rcases hoa : offerMinutes a with ea | na
      · exact ⟨ea, by simp only [collectDurations, hoa]⟩
      · obtain ⟨e2, h2⟩ := ih hmem
        exact ⟨e2, by simp only [collectDurations, hoa, h2]⟩

/-- Claim C6 (amended): an offer missing its price or duration fields makes
the ranking/tagging operation fail with a `KeyError` (propagated as an error
result) instead of being excluded from the comparisons; only a
present-but-unparsable duration string is handled defensively. -/
theorem tag_malformed_offer_raises {offers : List FlightOffer} {o : FlightOffer}
    (ho : o ∈ offers)
    (hbad : o.priceTotal = none ∨ o.itineraries = none ∨
      ∃ its, o.itineraries = some its ∧ ∃ itin ∈ its, itin.duration = none) :
    ∃ e, tagFlightOffers offers = Except.error e := by
  have hne : offers.isEmpty = false := by
    cases offers with
    | nil => simp at ho
    | cons a rest => rfl
  rcases hbad with hp | hrest
  · refine ⟨strL "KeyError: price", ?_⟩
    unfold tagFlightOffers
    rw [hne]
    simp only [Bool.false_eq_true, if_false]
    rw [collectPrices_error ho hp]
  · obtain ⟨e1, he1⟩ := offerMinutes_error hrest
    obtain ⟨e2, he2⟩ := collectDurations_error ho he1
    unfold tagFlightOffers
    rw [hne]
    simp only [Bool.false_eq_true, if_false]
    rcases hcp : collectPrices offers with ep | ps
    · exact ⟨ep, rfl⟩
    · rw [he2]
      exact ⟨e2, rfl⟩

/-- Witness for the amended C6 theorem: a concrete offer with no price. -/
theorem tag_malformed_offer_raises_witness :
    ∃ e, tagFlightOffers [c6noPriceOffer] = Except.error e :=
  tag_malformed_offer_raises (List.mem_singleton.mpr rfl) (Or.inl rfl)


theorem isExclusiveClean_some {t : PyStr} (ht : t ∈ exclusiveTypeNames) :
    isExclusiveClean (some t) = true := by
  unfold isExclusiveClean
  exact List.elem_iff.mpr ht

theorem rowsFor_delete_nil {db : List PrefRow} {w : WriteOp} {u t : PyStr}
    (hu : w.userId = u) (htc : cleanText w.prefType = some t) :
    rowsFor (db.filter (fun r =>
      !(r.userId == w.userId && r.prefType == cleanText w.prefType))) u t = [] := by
  unfold rowsFor
  rw [List.filter_eq_nil_iff]
  intro r hr
  obtain ⟨-, hpred⟩ := List.mem_filter.mp hr
  rw [hu, htc] at hpred
  simp only [Bool.not_eq_eq_eq_not, Bool.not_true, Bool.and_eq_false_iff] at hpred
  intro hcontra
  rw [Bool.and_eq_true] at hcontra
  rcases hpred with h1 | h2
  · rw [hcontra.1] at h1; simp at h1
  · rw [hcontra.2] at h2; simp at h2

theorem addPreference_exclusive_rows {db : List PrefRow} {w : WriteOp} {u t raw : PyStr}
    (ht : t ∈ exclusiveTypeNames)
    (hraw : cleanText (some w.rawText) = some raw)
    (htc : cleanText w.prefType = some t) (hu : w.userId = u) :
    rowsFor (addPreference db w) u t =
      [⟨w.opId, w.userId, some t, raw, cleanText w.canonicalText, w.now⟩] := by
  unfold addPreference
  rw [hraw]
  simp only
  rw [if_pos (by rw [htc]; exact isExclusiveClean_some ht)]
  unfold rowsFor
  rw [List.filter_append]
  have h1 := @rowsFor_delete_nil db w u t hu htc
  unfold rowsFor at h1
  rw [h1, htc]
  simp [hu]

theorem addPreference_count_le {db : List PrefRow} {w : WriteOp} {u t : PyStr}
    (ht : t ∈ exclusiveTypeNames)
    (hle : (rowsFor db u t).length ≤ 1) :
    (rowsFor (addPreference db w) u t).length ≤ 1 := by
  by_cases hm : w.userId = u ∧ cleanText w.prefType = some t
  · obtain ⟨hu, htc⟩ := hm
    obtain ⟨raw, hraw⟩ : ∃ x, cleanText (some w.rawText) = x := ⟨_, rfl⟩
    cases hraw2 : cleanText (some w.rawText) with
    | none => unfold addPreference; rw [hraw2]; exact hle
    | some rawv =>
      rw [addPreference_exclusive_rows ht hraw2 htc hu]
      simp
  · unfold addPreference
    cases hraw2 : cleanText (some w.rawText) with
    | none => exact hle
    | some rawv =>
      simp only
      unfold rowsFor at hle ⊢
      rw [List.filter_append]
      have hcond : (w.userId == u && cleanText w.prefType == some t) = false := by
        simp only [Bool.and_eq_false_iff]
        rcases Decidable.not_and_iff_or_not.mp hm with h1 | h2
        · exact Or.inl (by simpa using h1)
        · exact Or.inr (by simpa using h2)
      have hsingle : (List.filter (fun r : PrefRow => r.userId == u && r.prefType == some t)
          [⟨w.opId, w.userId, cleanText w.prefType, rawv, cleanText w.canonicalText, w.now⟩]) = [] := by
        simp [List.filter_singleton, hcond]
      rw [hsingle, List.append_nil]
      have hsub : (if isExclusiveClean (cleanText w.prefType) = true then
          db.filter (fun r => !(r.userId == w.userId && r.prefType == cleanText w.prefType))
          else db).Sublist db := by
        split_ifs
        · exact List.filter_sublist db
        · exact List.Sublist.refl db
      calc ((if isExclusiveClean (cleanText w.prefType) = true then
              db.filter (fun r => !(r.userId == w.userId && r.prefType == cleanText w.prefType))
              else db).filter (fun r => r.userId == u && r.prefType == some t)).length
          ≤ (db.filter (fun r => r.userId == u && r.prefType == some t)).length :=
            (hsub.filter _).length_le
        _ ≤ 1 := hle

/-- Claim C5: starting from an empty table, after any sequence of
`add_preference` writes at most one row exists per `(userId, exclusive
category)`; moreover each valid write of an exclusive category deletes all
prior rows of that category for that user before inserting the new one. -/
theorem exclusive_category_unique (ws : List WriteOp) (u t : PyStr)
    (ht : t ∈ exclusiveTypeNames) :
    (rowsFor (applyWrites [] ws) u t).length ≤ 1 ∧
    ∀ (db : List PrefRow) (w : WriteOp) (raw : PyStr),
      cleanText (some w.rawText) = some raw → cleanText w.prefType = some t →
      w.userId = u →
      rowsFor (addPreference db w) u t =
        [⟨w.opId, w.userId, some t, raw, cleanText w.canonicalText, w.now⟩] := by
  constructor
  · have hgen : ∀ (l : List WriteOp) (db : List PrefRow),
        (rowsFor db u t).length ≤ 1 → (rowsFor (applyWrites db l) u t).length ≤ 1 := by
      intro l
      induction l with
      | nil => intro db h; exact h
      | cons w rest ih =>
        intro db h
        exact ih _ (addPreference_count_le ht h)
    exact hgen ws [] (by simp [rowsFor])
  · intro db w raw hraw htc hu
    exact addPreference_exclusive_rows ht hraw htc hu

/-- Witness for C5: two consecutive cabin-class writes leave one row. -/
theorem exclusive_category_unique_witness :
    (rowsFor (applyWrites [] c5writes) (strL "u1") (strL "cabin_class")).length ≤ 1 :=
  (exclusive_category_unique c5writes (strL "u1") (strL "cabin_class") (by decide)).1


theorem uiCabinStep_adults (c : CurrentPrefs) (o : Overrides) :
    (uiCabinStep c o).adults = o.adults := by
  simp only [uiCabinStep]
  split <;> (try split_ifs) <;> rfl

theorem uiDirectStep_adults (c : CurrentPrefs) (o : Overrides) :
    (uiDirectStep c o).adults = o.adults := by
  simp only [uiDirectStep]
  split_ifs <;> rfl

theorem uiRedEyeStep_adults (c : CurrentPrefs) (o : Overrides) :
    (uiRedEyeStep c o).adults = o.adults := by
  simp only [uiRedEyeStep]
  split_ifs <;> rfl

theorem applyUi_adults (cur : Option CurrentPrefs) (o : Overrides) :
    (applyUiPreferences cur o).adults = o.adults := by
  unfold applyUiPreferences
  cases cur with
  | none => rfl
  | some c => rw [uiRedEyeStep_adults, uiDirectStep_adults, uiCabinStep_adults]

theorem uiDirectStep_travelClass (c : CurrentPrefs) (o : Overrides) :
    (uiDirectStep c o).travelClass = o.travelClass := by
  simp only [uiDirectStep]
  split_ifs <;> rfl

theorem uiRedEyeStep_travelClass (c : CurrentPrefs) (o : Overrides) :
    (uiRedEyeStep c o).travelClass = o.travelClass := by
  simp only [uiRedEyeStep]
  split_ifs <;> rfl

theorem applyPassenger_travelClass (prefs : Dict) (o : Overrides) :
    (applyPassengerPreferences prefs o).travelClass = o.travelClass := by
  simp only [applyPassengerPreferences]
  split_ifs <;> rfl

theorem applyPassenger_nonStop (prefs : Dict) (o : Overrides) :
    (applyPassengerPreferences prefs o).nonStop = o.nonStop := by
  simp only [applyPassengerPreferences]
  split_ifs <;> rfl

theorem applyPassenger_userPreferences (prefs : Dict) (o : Overrides) :
    (applyPassengerPreferences prefs o).userPreferences = o.userPreferences := by
  simp only [applyPassengerPreferences]
  split_ifs <;> rfl

theorem applyCabin_adults (prefs : Dict) (o : Overrides) :
    (applyCabinPreferences prefs o).adults = o.adults := by
  simp only [applyCabinPreferences]
  split_ifs <;> rfl

theorem applyCabin_nonStop (prefs : Dict) (o : Overrides) :
    (applyCabinPreferences prefs o).nonStop = o.nonStop := by
  simp only [applyCabinPreferences]
  split_ifs <;> rfl

theorem applyCabin_userPreferences (prefs : Dict) (o : Overrides) :
    (applyCabinPreferences prefs o).userPreferences = o.userPreferences := by
  simp only [applyCabinPreferences]
  split_ifs <;> rfl

theorem applyCabin_of_truthy (prefs : Dict) (o : Overrides)
    (h : travelClassTruthy o = true) : applyCabinPreferences prefs o = o := by
  unfold applyCabinPreferences
  rw [h]
  simp

theorem applyFlight_adults (prefs : Dict) (o : Overrides) :
    (applyFlightTypePreferences prefs o).adults = o.adults := by
  simp only [applyFlightTypePreferences]
  split_ifs <;> rfl

theorem applyFlight_travelClass (prefs : Dict) (o : Overrides) :
    (applyFlightTypePreferences prefs o).travelClass = o.travelClass := by
  simp only [applyFlightTypePreferences]
  split_ifs <;> rfl

theorem applyFlight_userPreferences (prefs : Dict) (o : Overrides) :
    (applyFlightTypePreferences prefs o).userPreferences = o.userPreferences := by
  simp only [applyFlightTypePreferences]
  split_ifs <;> rfl

theorem applyRedEye_adults (prefs : Dict) (o : Overrides) :
    (applyRedEyePreferences prefs o).adults = o.adults := by
  simp only [applyRedEyePreferences]
  split_ifs <;> rfl

theorem applyRedEye_travelClass (prefs : Dict) (o : Overrides) :
    (applyRedEyePreferences prefs o).travelClass = o.travelClass := by
  simp only [applyRedEyePreferences]
  split_ifs <;> rfl

theorem applyRedEye_nonStop (prefs : Dict) (o : Overrides) :
    (applyRedEyePreferences prefs o).nonStop = o.nonStop := by
  simp only [applyRedEyePreferences]
  split_ifs <;> rfl

theorem applyTime_adults (prefs : Dict) (o : Overrides) :
    (applyTimePreferences prefs o).adults = o.adults := by
  simp only [applyTimePreferences]
  split_ifs <;> rfl

theorem applyTime_travelClass (prefs : Dict) (o : Overrides) :
    (applyTimePreferences prefs o).travelClass = o.travelClass := by
  simp only [applyTimePreferences]
  split_ifs <;> rfl

theorem applyTime_nonStop (prefs : Dict) (o : Overrides) :
    (applyTimePreferences prefs o).nonStop = o.nonStop := by
  simp only [applyTimePreferences]
  split_ifs <;> rfl

theorem finalize_adults (o : Overrides) : (finalizeOverrides o).adults = o.adults := rfl

theorem finalize_travelClass (o : Overrides) :
    (finalizeOverrides o).travelClass = o.travelClass := rfl

theorem finalize_nonStop (o : Overrides) : (finalizeOverrides o).nonStop = o.nonStop := rfl

theorem finalize_userPreferences (o : Overrides) :
    (finalizeOverrides o).userPreferences = o.userPreferences := rfl


theorem uiCabinStep_userPreferences (c : CurrentPrefs) (o : Overrides) :
    (uiCabinStep c o).userPreferences = o.userPreferences := by
  simp only [uiCabinStep]
  split <;> (try split_ifs) <;> rfl

theorem uiDirectStep_userPreferences (c : CurrentPrefs) (o : Overrides) :
    (uiDirectStep c o).userPreferences = o.userPreferences := by
  simp only [uiDirectStep]
  split_ifs <;> rfl

theorem uiRedEyeStep_up_extra (c : CurrentPrefs) (o : Overrides) :
    (uiRedEyeStep c o).userPreferences.nonStopOnly = o.userPreferences.nonStopOnly ∧
    (uiRedEyeStep c o).userPreferences.preferredCabin = o.userPreferences.preferredCabin ∧
    (uiRedEyeStep c o).userPreferences.maxPrice = o.userPreferences.maxPrice := by
  simp only [uiRedEyeStep]
  split_ifs <;> exact ⟨rfl, rfl, rfl⟩

theorem applyRedEye_up_extra (prefs : Dict) (o : Overrides) :
    (applyRedEyePreferences prefs o).userPreferences.nonStopOnly = o.userPreferences.nonStopOnly ∧
    (applyRedEyePreferences prefs o).userPreferences.preferredCabin = o.userPreferences.preferredCabin ∧
    (applyRedEyePreferences prefs o).userPreferences.maxPrice = o.userPreferences.maxPrice := by
  simp only [applyRedEyePreferences]
  split_ifs <;> exact ⟨rfl, rfl, rfl⟩

theorem applyTime_up_extra (prefs : Dict) (o : Overrides) :
    (applyTimePreferences prefs o).userPreferences.nonStopOnly = o.userPreferences.nonStopOnly ∧
    (applyTimePreferences prefs o).userPreferences.preferredCabin = o.userPreferences.preferredCabin ∧
    (applyTimePreferences prefs o).userPreferences.maxPrice = o.userPreferences.maxPrice := by
  simp only [applyTimePreferences]
  split_ifs <;> exact ⟨rfl, rfl, rfl⟩

theorem overrides_up_extra (prefs : Dict) (cur : Option CurrentPrefs) :
    (getPreferenceOverrides prefs cur).userPreferences.nonStopOnly = false ∧
    (getPreferenceOverrides prefs cur).userPreferences.preferredCabin = none ∧
    (getPreferenceOverrides prefs cur).userPreferences.maxPrice = none := by
  unfold getPreferenceOverrides
  obtain ⟨t1, t2, t3⟩ := applyTime_up_extra prefs
    (applyRedEyePreferences prefs (applyFlightTypePreferences prefs
      (applyCabinPreferences prefs (applyPassengerPreferences prefs
        (applyUiPreferences cur {})))))
  obtain ⟨r1, r2, r3⟩ := applyRedEye_up_extra prefs
    (applyFlightTypePreferences prefs (applyCabinPreferences prefs
      (applyPassengerPreferences prefs (applyUiPreferences cur {}))))
  rw [finalize_userPreferences] at *
  refine ⟨?_, ?_, ?_⟩
  · rw [t1, r1, applyFlight_userPreferences, applyCabin_userPreferences,
      applyPassenger_userPreferences]
    cases cur with
    | none => rfl
    | some c =>
      show (uiRedEyeStep c (uiDirectStep c (uiCabinStep c {}))).userPreferences.nonStopOnly = false
      rw [(uiRedEyeStep_up_extra c _).1, uiDirectStep_userPreferences,
        uiCabinStep_userPreferences]
  · rw [t2, r2, applyFlight_userPreferences, applyCabin_userPreferences,
      applyPassenger_userPreferences]
    cases cur with
    | none => rfl
    | some c =>
      show (uiRedEyeStep c (uiDirectStep c (uiCabinStep c {}))).userPreferences.preferredCabin = none
      rw [(uiRedEyeStep_up_extra c _).2.1, uiDirectStep_userPreferences,
        uiCabinStep_userPreferences]
  · rw [t3, r3, applyFlight_userPreferences, applyCabin_userPreferences,
      applyPassenger_userPreferences]
    cases cur with
    | none => rfl
    | some c =>
      show (uiRedEyeStep c (uiDirectStep c (uiCabinStep c {}))).userPreferences.maxPrice = none
      rw [(uiRedEyeStep_up_extra c _).2.2, uiDirectStep_userPreferences,
        uiCabinStep_userPreferences]

theorem uiCabinStep_shape (c : CurrentPrefs) (o : Overrides)
    (h : o.travelClass = none ∨ o.travelClass ∈
      [some (strL "FIRST"), some (strL "BUSINESS"), some (strL "PREMIUM_ECONOMY"),
       some (strL "ECONOMY")]) :
    (uiCabinStep c o).travelClass = none ∨ (uiCabinStep c o).travelClass ∈
      [some (strL "FIRST"), some (strL "BUSINESS"), some (strL "PREMIUM_ECONOMY"),
       some (strL "ECONOMY")] := by
  simp only [uiCabinStep]
  split <;> (try split_ifs) <;> first | exact h | (right; simp [strL])

theorem applyCabin_shape (prefs : Dict) (o : Overrides)
    (h : o.travelClass = none ∨ o.travelClass ∈
      [some (strL "FIRST"), some (strL "BUSINESS"), some (strL "PREMIUM_ECONOMY"),
       some (strL "ECONOMY")]) :
    (applyCabinPreferences prefs o).travelClass = none ∨
    (applyCabinPreferences prefs o).travelClass ∈
      [some (strL "FIRST"), some (strL "BUSINESS"), some (strL "PREMIUM_ECONOMY"),
       some (strL "ECONOMY")] := by
  simp only [applyCabinPreferences]
  split_ifs <;> first | exact h | (right; simp [strL])

theorem overrides_travelClass_shape (prefs : Dict) (cur : Option CurrentPrefs) :
    (getPreferenceOverrides prefs cur).travelClass = none ∨
    (getPreferenceOverrides prefs cur).travelClass ∈
      [some (strL "FIRST"), some (strL "BUSINESS"), some (strL "PREMIUM_ECONOMY"),
       some (strL "ECONOMY")] := by
  unfold getPreferenceOverrides
  rw [finalize_travelClass, applyTime_travelClass, applyRedEye_travelClass,
    applyFlight_travelClass]
  apply applyCabin_shape
  rw [applyPassenger_travelClass]
  cases cur with
  | none => exact Or.inl rfl
  | some c =>
    simp only [applyUiPreferences]
    rw [uiRedEyeStep_travelClass, uiDirectStep_travelClass]
    exact uiCabinStep_shape c _ (Or.inl rfl)

theorem executeSearch_fields (args : ToolArgs) (prefs : Dict) (cur : Option CurrentPrefs) :
    (executeSearchFlightsParams args prefs cur).adults =
      ((getPreferenceOverrides prefs cur).adults.getD (args.adults.getD 1)) ∧
    (executeSearchFlightsParams args prefs cur).nonStop =
      ((getPreferenceOverrides prefs cur).nonStop.getD (args.nonStop.getD false)) ∧
    (executeSearchFlightsParams args prefs cur).travelClass =
      sentTravelClass (match (getPreferenceOverrides prefs cur).travelClass with
        | some t => some t
        | none => args.travelClass) := by
  obtain ⟨h1, h2, h3⟩ := overrides_up_extra prefs cur
  refine ⟨?_, ?_, ?_⟩
  · simp only [executeSearchFlightsParams, amadeusSearchParams]
  · simp only [executeSearchFlightsParams, amadeusSearchParams]
    rw [h1]
    simp
  · simp only [executeSearchFlightsParams, amadeusSearchParams]
    rw [h2]
    simp

theorem getPreferenceOverrides_adults (prefs : Dict) (cur : Option CurrentPrefs) :
    (getPreferenceOverrides prefs cur).adults =
      (applyPassengerPreferences prefs (applyUiPreferences cur {})).adults := by
  unfold getPreferenceOverrides
  rw [finalize_adults, applyTime_adults, applyRedEye_adults, applyFlight_adults,
    applyCabin_adults]

theorem uiCabinStep_business (c : CurrentPrefs) (o : Overrides)
    (h : c.cabinClass = some (strL "Business")) :
    (uiCabinStep c o).travelClass = some (strL "BUSINESS") := by
  simp only [uiCabinStep, h]
  rfl

theorem overrides_travelClass_business (prefs : Dict) (cur : CurrentPrefs)
    (h : cur.cabinClass = some (strL "Business")) :
    (getPreferenceOverrides prefs (some cur)).travelClass = some (strL "BUSINESS") := by
  unfold getPreferenceOverrides
  rw [finalize_travelClass, applyTime_travelClass, applyRedEye_travelClass,
    applyFlight_travelClass]
  have hui : (applyUiPreferences (some cur) {}).travelClass = some (strL "BUSINESS") := by
    simp only [applyUiPreferences]
    rw [uiRedEyeStep_travelClass, uiDirectStep_travelClass, uiCabinStep_business cur {} h]
  have hp : (applyPassengerPreferences prefs
      (applyUiPreferences (some cur) {})).travelClass = some (strL "BUSINESS") := by
    rw [applyPassenger_travelClass, hui]
  have ht : travelClassTruthy (applyPassengerPreferences prefs
      (applyUiPreferences (some cur) {})) = true := by
    simp only [travelClassTruthy, hp]
    decide
  rw [applyCabin_of_truthy prefs _ ht, hp]

/-- **C7**: whatever the stored preference summary says (including a stored
`cabin_class = "Cabin class: Economy"`), a current-request UI selection of
`cabinClass = "Business"` makes the compiled search parameters send
`travelClass = "BUSINESS"` — the UI selection always wins. -/
theorem ui_cabin_class_wins (args : ToolArgs) (prefs : Dict) (cur : CurrentPrefs)
    (h : cur.cabinClass = some (strL "Business")) :
    (executeSearchFlightsParams args prefs (some cur)).travelClass =
      some (strL "BUSINESS") := by
  obtain ⟨-, -, h3⟩ := executeSearch_fields args prefs (some cur)
  rw [h3, overrides_travelClass_business prefs cur h]
  rfl

theorem ui_cabin_class_wins_witness :
    (executeSearchFlightsParams {} [(strL "cabin_class", [strL "Cabin class: Economy"])]
      (some { cabinClass := some (strL "Business") })).travelClass =
      some (strL "BUSINESS") :=
  ui_cabin_class_wins {} [(strL "cabin_class", [strL "Cabin class: Economy"])]
    { cabinClass := some (strL "Business") } rfl

theorem applyPassenger_adults_char (prefs : Dict) (o : Overrides) :
    (applyPassengerPreferences prefs o).adults =
      (if (passengerItems prefs).isEmpty then o.adults
       else if hasSub (strL "alone") (pyLower (joinSpace (passengerItems prefs))) ||
           hasSub (strL "solo") (pyLower (joinSpace (passengerItems prefs))) then some 1
       else if hasSub (strL "2") (pyLower (joinSpace (passengerItems prefs))) ||
           hasSub (strL "couple") (pyLower (joinSpace (passengerItems prefs))) then some 2
       else if hasSub (strL "family") (pyLower (joinSpace (passengerItems prefs))) ||
           hasSub (strL "kids") (pyLower (joinSpace (passengerItems prefs))) ||
           hasSub (strL "children") (pyLower (joinSpace (passengerItems prefs))) then some 4
       else o.adults) := by
  simp only [applyPassengerPreferences]
  split_ifs <;> rfl

theorem overrides_adults_char (prefs : Dict) (cur : Option CurrentPrefs) :
    (getPreferenceOverrides prefs cur).adults =
      (if (passengerItems prefs).isEmpty then none
       else if hasSub (strL "alone") (pyLower (joinSpace (passengerItems prefs))) ||
           hasSub (strL "solo") (pyLower (joinSpace (passengerItems prefs))) then some 1
       else if hasSub (strL "2") (pyLower (joinSpace (passengerItems prefs))) ||
           hasSub (strL "couple") (pyLower (joinSpace (passengerItems prefs))) then some 2
       else if hasSub (strL "family") (pyLower (joinSpace (passengerItems prefs))) ||
           hasSub (strL "kids") (pyLower (joinSpace (passengerItems prefs))) ||
           hasSub (strL "children") (pyLower (joinSpace (passengerItems prefs))) then some 4
       else none) := by
  rw [getPreferenceOverrides_adults, applyPassenger_adults_char, applyUi_adults]

/-- **C9** (corrected): the passenger-preference → adult-count mapping the
code actually implements: solo/alone text gives 1, text containing "2" or
"couple" gives 2, family/kids/children gives 4, and anything else — in
particular the canonical "Travel: With partner" label, which contains
neither "2" nor "couple" — yields no override; when no override is
produced, the caller's explicit adults value is sent untouched. -/
theorem passenger_adult_mapping (args : ToolArgs) (prefs : Dict)
    (cur : Option CurrentPrefs) :
    ((getPreferenceOverrides prefs cur).adults =
      (if (passengerItems prefs).isEmpty then none
       else if hasSub (strL "alone") (pyLower (joinSpace (passengerItems prefs))) ||
           hasSub (strL "solo") (pyLower (joinSpace (passengerItems prefs))) then some 1
       else if hasSub (strL "2") (pyLower (joinSpace (passengerItems prefs))) ||
           hasSub (strL "couple") (pyLower (joinSpace (passengerItems prefs))) then some 2
       else if hasSub (strL "family") (pyLower (joinSpace (passengerItems prefs))) ||
           hasSub (strL "kids") (pyLower (joinSpace (passengerItems prefs))) ||
           hasSub (strL "children") (pyLower (joinSpace (passengerItems prefs))) then some 4
       else none)) ∧
    ((getPreferenceOverrides prefs cur).adults = none →
      (executeSearchFlightsParams args prefs cur).adults = args.adults.getD 1) := by
  refine ⟨overrides_adults_char prefs cur, fun hn => ?_⟩
  obtain ⟨h1, -, -⟩ := executeSearch_fields args prefs cur
  rw [h1, hn]
  rfl

theorem passenger_adult_mapping_witness :
    (getPreferenceOverrides c9soloPrefs none).adults = some 1 ∧
    (executeSearchFlightsParams { adults := some 5 } c9partnerPrefs none).adults = 5 := by
  have h1 := passenger_adult_mapping ({ adults := some 5 } : ToolArgs) c9soloPrefs none
  have h2 := passenger_adult_mapping ({ adults := some 5 } : ToolArgs) c9partnerPrefs none
  refine ⟨?_, ?_⟩
  · rw [h1.1]
    decide
  · rw [h2.2 (by rw [h2.1]; decide)]
    rfl

theorem passenger_partner_counterexample :
    dictGet c9partnerPrefs (strL "passenger") = [strL "Travel: With partner"] ∧
    (getPreferenceOverrides c9partnerPrefs none).adults ≠ some 2 ∧
    (executeSearchFlightsParams { adults := some 5 } c9partnerPrefs none).adults = 5 := by
  refine ⟨by decide, ?_, ?_⟩
  · rw [overrides_adults_char]
    decide
  · obtain ⟨h1, -, -⟩ := executeSearch_fields { adults := some 5 } c9partnerPrefs none
    rw [h1, overrides_adults_char]
    decide

/-- **C1** (corrected): compiled overrides take precedence over explicit
caller arguments, not the other way round: the sent value equals the
override whenever one was compiled, and equals the caller's explicit value
only when no override was compiled for that parameter. -/
theorem explicit_params_are_defaults (args : ToolArgs) (prefs : Dict)
    (cur : Option CurrentPrefs) :
    (∀ n, (getPreferenceOverrides prefs cur).adults = some n →
        (executeSearchFlightsParams args prefs cur).adults = n) ∧
    ((getPreferenceOverrides prefs cur).adults = none →
        (executeSearchFlightsParams args prefs cur).adults = args.adults.getD 1) ∧
    (∀ b, (getPreferenceOverrides prefs cur).nonStop = some b →
        (executeSearchFlightsParams args prefs cur).nonStop = b) ∧
    ((getPreferenceOverrides prefs cur).nonStop = none →
        (executeSearchFlightsParams args prefs cur).nonStop = args.nonStop.getD false) ∧
    (∀ t, (getPreferenceOverrides prefs cur).travelClass = some t →
        (executeSearchFlightsParams args prefs cur).travelClass = sentTravelClass (some t)) ∧
    ((getPreferenceOverrides prefs cur).travelClass = none →
        (executeSearchFlightsParams args prefs cur).travelClass =
          sentTravelClass args.travelClass) := by
  obtain ⟨h1, h2, h3⟩ := executeSearch_fields args prefs cur
  refine ⟨?_, ?_, ?_, ?_, ?_, ?_⟩
  · intro n hn
    rw [h1, hn]
    rfl
  · intro hn
    rw [h1, hn]
    rfl
  · intro b hb
    rw [h2, hb]
    rfl
  · intro hb
    rw [h2, hb]
    rfl
  · intro t ht
    rw [h3, ht]
  · intro ht
    rw [h3, ht]

theorem explicit_params_are_defaults_witness :
    (executeSearchFlightsParams c1args [] none).adults = 3 := by
  have h := explicit_params_are_defaults c1args [] none
  rw [h.2.1 (by decide)]
  rfl

theorem explicit_params_counterexample :
    c1args.adults = some 3 ∧
    (executeSearchFlightsParams c1args (summarizePreferences [] [soloDbRow]) none).adults
      = 1 := by
  refine ⟨rfl, ?_⟩
  decide

theorem dictGet_cons (kv : PyStr × List PyStr) (rest : Dict) (t : PyStr) :
    dictGet (kv :: rest) t = if (kv.1 == t) = true then kv.2 else dictGet rest t := by
  simp only [dictGet, List.find?_cons]
  by_cases h : (kv.1 == t) = true
  · simp only [h, if_pos]
  · rw [Bool.not_eq_true] at h
    simp only [h]
    rw [if_neg]
    simp [h]

theorem dictSet_map_get (k : PyStr) (v : List PyStr) (d : Dict)
    (h : dictHas d k = true) :
    dictGet (d.map (fun kv => if (kv.1 == k) = true then (k, v) else kv)) k = v := by
  induction d with
  | nil => simp [dictHas] at h
  | cons kv rest ih =>
    rw [List.map_cons]
    by_cases hk : (kv.1 == k) = true
    · rw [if_pos hk, dictGet_cons, if_pos (by simp)]
    · rw [if_neg hk, dictGet_cons, if_neg hk]
      apply ih
      rw [Bool.not_eq_true] at hk
      simp only [dictHas, List.any_cons, hk, Bool.false_or] at h
      exact h

theorem dictGet_append_not_has (k : PyStr) (v : List PyStr) (d : Dict)
    (h : dictHas d k = false) :
    dictGet (d ++ [(k, v)]) k = v := by
  induction d with
  | nil => rw [List.nil_append, dictGet_cons, if_pos (by simp)]
  | cons kv rest ih =>
    simp only [dictHas, List.any_cons, Bool.or_eq_false_iff] at h
    rw [List.cons_append, dictGet_cons, if_neg (by simp [h.1])]
    exact ih h.2

theorem dictGet_dictSet_self (d : Dict) (k : PyStr) (v : List PyStr) :
    dictGet (dictSet d k v) k = v := by
  unfold dictSet
  by_cases h : dictHas d k = true
  · rw [if_pos h]
    exact dictSet_map_get k v d h
  · rw [if_neg h]
    rw [Bool.not_eq_true] at h
    exact dictGet_append_not_has k v d h

theorem dictSet_map_get_ne (k t : PyStr) (v : List PyStr) (d : Dict) (h : t ≠ k) :
    dictGet (d.map (fun kv => if (kv.1 == k) = true then (k, v) else kv)) t
      = dictGet d t := by
  induction d with
  | nil => rfl
  | cons kv rest ih =>
    rw [List.map_cons]
    by_cases hk : (kv.1 == k) = true
    · rw [if_pos hk, dictGet_cons, dictGet_cons]
      rw [beq_iff_eq] at hk
      have h1 : ¬ (((k, v).1 == t) = true) := by
        simp only [beq_iff_eq]
        exact fun hc => h hc.symm
      have h2 : ¬ ((kv.1 == t) = true) := by
        simp only [beq_iff_eq]
        exact fun hc => h (hc ▸ hk)
      rw [if_neg h1, if_neg h2]
      exact ih
    · rw [if_neg hk, dictGet_cons, dictGet_cons]
      by_cases ht : (kv.1 == t) = true
      · rw [if_pos ht, if_pos ht]
      · rw [if_neg ht, if_neg ht]
        exact ih

theorem dictGet_append_ne (k t : PyStr) (v : List PyStr) (d : Dict) (h : t ≠ k) :
    dictGet (d ++ [(k, v)]) t = dictGet d t := by
  induction d with
  | nil =>
    rw [List.nil_append, dictGet_cons,
      if_neg (by simp only [beq_iff_eq]; exact fun hc => h hc.symm)]
  | cons kv rest ih =>
    rw [List.cons_append, dictGet_cons, dictGet_cons]
    by_cases ht : (kv.1 == t) = true
    · rw [if_pos ht, if_pos ht]
    · rw [if_neg ht, if_neg ht]
      exact ih

theorem dictGet_dictSet_ne (d : Dict) (k : PyStr) (v : List PyStr) (t : PyStr)
    (h : t ≠ k) : dictGet (dictSet d k v) t = dictGet d t := by
  unfold dictSet
  by_cases hh : dictHas d k = true
  · rw [if_pos hh]
    exact dictSet_map_get_ne k t v d h
  · rw [if_neg hh]
    exact dictGet_append_ne k t v d h

theorem owStep_self (rows : List DbRow) (s : Dict) (t : PyStr) (r : DbRow)
    (hr : latestDbByType rows t = some r) (hd : (dbDisplay r).isEmpty = false) :
    dictGet (owStep rows s t) t = [dbDisplay r] := by
  simp only [owStep, hr, hd]
  rw [if_neg (by simp [hd])]
  exact dictGet_dictSet_self s t [dbDisplay r]

theorem owStep_ne (rows : List DbRow) (s : Dict) (t tp : PyStr) (h : t ≠ tp) :
    dictGet (owStep rows s tp) t = dictGet s t := by
  cases hlr : latestDbByType rows tp with
  | none => simp only [owStep, hlr]
  | some r =>
    simp only [owStep, hlr]
    by_cases hd : (dbDisplay r).isEmpty = true
    · rw [if_pos hd]
    · rw [if_neg hd]
      exact dictGet_dictSet_ne s tp [dbDisplay r] t h

theorem overwrite_get (rows : List DbRow) (s : Dict) (t : PyStr)
    (ht : t ∈ exclusiveTypeNames) (r : DbRow)
    (hr : latestDbByType rows t = some r) (hd : (dbDisplay r).isEmpty = false) :
    dictGet (overwriteExclusive rows s) t = [dbDisplay r] := by
  simp only [exclusiveTypeNames, List.mem_cons, List.not_mem_nil, or_false] at ht
  simp only [overwriteExclusive, exclusiveTypeNames, List.foldl_cons, List.foldl_nil]
  rcases ht with h | h | h | h <;> subst h
  · rw [owStep_ne rows _ _ (strL "passenger") (by decide),
      owStep_ne rows _ _ (strL "trip_type") (by decide),
      owStep_ne rows _ _ (strL "departure_time") (by decide)]
    exact owStep_self rows _ _ r hr hd
  · rw [owStep_ne rows _ _ (strL "passenger") (by decide),
      owStep_ne rows _ _ (strL "trip_type") (by decide)]
    exact owStep_self rows _ _ r hr hd
  · rw [owStep_ne rows _ _ (strL "passenger") (by decide)]
    exact owStep_self rows _ _ r hr hd
  · exact owStep_self rows _ _ r hr hd

theorem filterLuxury_get_ne (s : Dict) (t : PyStr) (h1 : t ≠ strL "other")
    (h2 : t ≠ strL "budget") : dictGet (filterLuxury s) t = dictGet s t := by
  simp only [filterLuxury, List.foldl_cons, List.foldl_nil]
  rw [dictGet_dictSet_ne _ _ _ t h2, dictGet_dictSet_ne _ _ _ t h1]

theorem dropEmpty_get (d : Dict) (t : PyStr) (h : dictGet d t ≠ []) :
    dictGet (dropEmptyCategories d) t = dictGet d t := by
  induction d with
  | nil => rfl
  | cons kv rest ih =>
    rw [dictGet_cons] at h ⊢
    simp only [dropEmptyCategories, List.filter_cons]
    by_cases hk : (kv.1 == t) = true
    · rw [if_pos hk] at h ⊢
      have hne : (!kv.2.isEmpty) = true := by
        simpa [List.isEmpty_iff] using h
      rw [if_pos hne, dictGet_cons, if_pos hk]
    · rw [if_neg hk] at h ⊢
      by_cases he : (!kv.2.isEmpty) = true
      · rw [if_pos he, dictGet_cons, if_neg hk]
        exact ih h
      · rw [if_neg he]
        exact ih h

theorem exclusive_not_cleanup_key (t : PyStr) (ht : t ∈ exclusiveTypeNames) :
    t ≠ strL "other" ∧ t ≠ strL "budget" := by
  simp only [exclusiveTypeNames, List.mem_cons, List.not_mem_nil, or_false] at ht
  rcases ht with h | h | h | h <;> subst h <;> exact ⟨by decide, by decide⟩

/-- **C3** (corrected): whenever the preference store has a (newest) row for
an exclusive category with a nonempty display text, the final merged summary
contains exactly that one value for the category — the DB layer wins and the
category is unique. (Without such a DB row the fuzzy-memory layer can leave
several values for an exclusive category, so the invariant as stated fails.) -/
theorem exclusive_merged_unique (memories : List PyStr) (rows : List DbRow)
    (t : PyStr) (ht : t ∈ exclusiveTypeNames) (r : DbRow)
    (hr : latestDbByType rows t = some r) (hd : (dbDisplay r).isEmpty = false) :
    dictGet (summarizePreferences memories rows) t = [dbDisplay r] := by
  obtain ⟨hno, hnb⟩ := exclusive_not_cleanup_key t ht
  simp only [summarizePreferences]
  have hfl : dictGet (filterLuxury (overwriteExclusive rows
      ((rows.foldl processDbRow (memories.foldl processMemory
        { summary := initDict, seen := initDict })).summary))) t = [dbDisplay r] := by
    rw [filterLuxury_get_ne _ _ hno hnb]
    exact overwrite_get rows _ t ht r hr hd
  rw [dropEmpty_get _ _ (by rw [hfl]; exact List.cons_ne_nil _ _), hfl]

theorem exclusive_merged_unique_witness :
    latestDbByType [econDbRow] (strL "cabin_class") = some econDbRow ∧
    dictGet (summarizePreferences c3memories [econDbRow]) (strL "cabin_class")
      = [dbDisplay econDbRow] :=
  ⟨by decide, exclusive_merged_unique c3memories [econDbRow] (strL "cabin_class")
    (by decide) econDbRow (by decide) (by decide)⟩

theorem exclusive_merged_counterexample :
    dictGet (summarizePreferences c3memories []) (strL "cabin_class")
      = [strL "Cabin class: Business", strL "Cabin class: Economy"] := by
  decide

end TravelAssistant
